import Mathlib

/-!
# Verification of the deterministic DDQ risk-inference core

A shallow embedding, in Lean 4, of the deterministic inference pipeline of
the token-report application:

* `app/ddq_parser.py` and `app/report_snapshot.py` — board-escalation
  classification (`_is_real_board_trigger`);
* `app/listing_requirements.py` — effective-tag extraction, the listing
  context builder, the requirement rule engine and its rule catalogue;
* `app/ddq_signals.py` — response normalisation, confidence ranking,
  numeric extraction, candidate-answer selection and signal resolution;
* `app/ddq_question_registry.py` — the static signal registry;
* `app/token_type.py` — the canonical token-type cascade;
* `app/risk_tag_inference.py` — the rule battery producing risk tags.

Python strings are modelled as Lean `String`s, with the handful of Python
string primitives (`lower`, `upper`, `strip`, `startswith`, `in`,
lexicographic `<` used by `sorted`) re-implemented structurally over
`String.data` so that every definition evaluates inside the kernel.
Python `float`s produced by the numeric extractor are decimals, and are
modelled exactly as a natural mantissa with a power-of-ten scale.
Python dictionaries are modelled as association lists or as structures
with optional fields; `None` becomes `Option`.
-/

/-! ## Python string primitives -/

/-- ASCII lower-casing of one character (Python `str.lower` on the ASCII
range used by the application). -/
def pyLowerChar (c : Char) : Char :=
  if 65 ≤ c.toNat ∧ c.toNat ≤ 90 then Char.ofNat (c.toNat + 32) else c

/-- ASCII upper-casing of one character. -/
def pyUpperChar (c : Char) : Char :=
  if 97 ≤ c.toNat ∧ c.toNat ≤ 122 then Char.ofNat (c.toNat - 32) else c

/-- Python `str.lower` (ASCII range). -/
def pyLower (s : String) : String := ⟨s.data.map pyLowerChar⟩

/-- Python `str.upper` (ASCII range). -/
def pyUpper (s : String) : String := ⟨s.data.map pyUpperChar⟩

/-- The whitespace characters removed by Python `str.strip`. -/
def isPySpace (c : Char) : Bool :=
  c.toNat = 32 || c.toNat = 9 || c.toNat = 10 || c.toNat = 13 ||
    c.toNat = 11 || c.toNat = 12

/-- Python `str.strip`: drop leading and trailing whitespace. -/
def pyStrip (s : String) : String :=
  ⟨((s.data.dropWhile isPySpace).reverse.dropWhile isPySpace).reverse⟩

/-- `listStarts t p` is true when the character list `t` begins with `p`. -/
def listStarts : List Char → List Char → Bool
  | _, [] => true
  | [], _ :: _ => false
  | c :: cs, p :: ps => decide (c = p) && listStarts cs ps

/-- Python `s.startswith(p)`. -/
def pyStarts (s p : String) : Bool := listStarts s.data p.data

/-- `listHasSub pat t` is true when `pat` occurs as a contiguous substring
of `t` (Python `pat in t`). -/
def listHasSub (pat : List Char) : List Char → Bool
  | [] => listStarts [] pat
  | c :: rest => listStarts (c :: rest) pat || listHasSub pat rest

/-- Python `pat in s` (substring containment). -/
def pyIn (pat s : String) : Bool := listHasSub pat.data s.data

/-- Code-point lexicographic strict order on character lists (the order
Python uses to compare and sort strings). -/
def lexLt : List Char → List Char → Bool
  | [], [] => false
  | [], _ :: _ => true
  | _ :: _, [] => false
  | a :: as, b :: bs => a.toNat < b.toNat || (a.toNat = b.toNat && lexLt as bs)

/-- Python `<` on strings. -/
def strLt (a b : String) : Bool := lexLt a.data b.data

/-- Insert a string into a sorted duplicate-free list, keeping it sorted
and duplicate-free. -/
def insortNodup (x : String) : List String → List String
  | [] => [x]
  | y :: ys =>
    if strLt x y then x :: y :: ys
    else if decide (x = y) then y :: ys
    else y :: insortNodup x ys

/-- Python `sorted(set(l))`: the canonical sorted duplicate-free list with
the same members as `l`. -/
def pySortedSet (l : List String) : List String := l.foldr insortNodup []

/-! ## Escalation classification (`app/ddq_parser.py`, lines 54-82) -/

namespace DdqParser

/-- `NON_ESCALATION_FLAGS` from `app/ddq_parser.py`. -/
def NON_ESCALATION_FLAGS : List String := ["", "no", "false", "0", "no review"]

/-- `REAL_ESCALATION_KEYWORDS` from `app/ddq_parser.py`. -/
def REAL_ESCALATION_KEYWORDS : List String :=
  ["review required", "board review", "listing committee", "escalate", "reject"]

/-- `_is_real_board_trigger` from `app/ddq_parser.py`: `None` and
informational flags are not triggers; otherwise a flag is a trigger exactly
when it contains one of the escalation keywords. -/
def _is_real_board_trigger (flag : Option String) : Bool :=
  match flag with
  | none => false
  | some flag =>
    let f := pyLower (pyStrip flag)
    if NON_ESCALATION_FLAGS.any (fun x => decide (x = f)) then false
    else REAL_ESCALATION_KEYWORDS.any (fun k => pyIn k f)

end DdqParser

/-! ## Escalation classification (`app/report_snapshot.py`, lines 87-114) -/

namespace ReportSnapshot

/-- `_NON_ESCALATION_FLAGS` from `app/report_snapshot.py`. -/
def _NON_ESCALATION_FLAGS : List String := ["", "no", "false", "0", "no review"]

/-- `_REAL_ESCALATION_KEYWORDS` from `app/report_snapshot.py`. -/
def _REAL_ESCALATION_KEYWORDS : List String :=
  ["review required", "board review", "listing committee", "escalate", "reject"]

/-- `_is_real_board_trigger` from `app/report_snapshot.py`. -/
def _is_real_board_trigger (flag : Option String) : Bool :=
  match flag with
  | none => false
  | some flag =>
    let f := pyLower (pyStrip flag)
    if _NON_ESCALATION_FLAGS.any (fun x => decide (x = f)) then false
    else _REAL_ESCALATION_KEYWORDS.any (fun k => pyIn k f)

end ReportSnapshot

/-! ## Escalation classification (`app/listing_requirements.py`, lines 33-58) -/

namespace ListingRequirements

/-- The `non_triggers` set inside `_is_real_escalation_flag`. -/
def non_triggers : List String :=
  ["no review", "no-review", "none", "n/a", "na", "informational", "info",
   "information only", "ok", "okay", "pass"]

/-- `_is_real_escalation_flag` from `app/listing_requirements.py`: a flag is
a trigger when its stripped lower-cased text is non-empty and not in the
`non_triggers` set. (`str(flag)` on a string is the identity; on `None`
the source short-circuits to the empty string.) -/
def _is_real_escalation_flag (flag : Option String) : Bool :=
  let s := pyLower (pyStrip (match flag with | some f => f | none => ""))
  if decide (s = "") then false
  else !(non_triggers.any (fun x => decide (x = s)))

end ListingRequirements

/-- Modelled from the spec (§3 BoardEscalation): a flag is a "real" trigger
only if it is non-empty, not one of the informational synonyms
("no review", "no", "false", "0", ""), and contains one of the keyword
substrings ("review required", "board review", "listing committee",
"escalate", "reject"). This is the classifier the spec requires every
escalation-counting component to share. -/
def spec_is_real_trigger (flag : Option String) : Bool :=
  match flag with
  | none => false
  | some flag =>
    let f := pyLower (pyStrip flag)
    !(decide (f = "")) &&
    !(["no review", "no", "false", "0", ""].any (fun x => decide (x = f))) &&
    (["review required", "board review", "listing committee", "escalate",
      "reject"].any (fun k => pyIn k f))

/-! ## Response normalisation and signals (`app/ddq_signals.py`) -/

namespace DdqSignals

/-- `_norm` from `app/ddq_signals.py`: `str(x or "").strip()`. -/
def _norm (x : Option String) : String := pyStrip (x.getD "")

/-- `_norm_low` from `app/ddq_signals.py`. -/
def _norm_low (x : Option String) : String := pyLower (_norm x)

/-- `normalise_raw_response` from `app/ddq_signals.py` (lines 33-75): the
first-match-wins bucket cascade. -/
def normalise_raw_response (raw : Option String) : String :=
  let s := _norm_low raw
  if decide (s = "") then "unknown"
  else if ["n/a", "na", "not applicable", "not-applicable"].any
      (fun x => decide (x = s)) then "na"
  else if ["unknown", "unclear", "not disclosed", "not provided", "tbc",
      "to be confirmed"].any (fun k => pyIn k s) then "unknown"
  else if ["yes", "y", "true"].any (fun x => decide (x = s)) then "yes"
  else if pyStarts s "yes" then "yes"
  else if ["no", "n", "false"].any (fun x => decide (x = s)) then "no"
  else if pyStarts s "no" then "no"
  else if ["none disclosed", "none identified", "none reported",
      "none known"].any (fun x => decide (x = s)) then "no"
  else if pyStarts s "none disclosed" then "no"
  else if pyStarts s "none identified" then "no"
  else if ["partial", "partially", "mixed", "limited", "some", "in part",
      "incomplete"].any (fun k => pyIn k s) then "partial"
  else "other"

/-- `confidence_rank` from `app/ddq_signals.py`. -/
def confidence_rank (conf : Option String) : Nat :=
  let c := _norm_low conf
  if pyStarts c "high" then 3
  else if pyStarts c "medium" then 2
  else if pyStarts c "low" then 1
  else if ["unknown", ""].any (fun x => decide (x = c)) then 0
  else 0

end DdqSignals

/-! ### Exact decimal model of the Python floats -/

/-- A non-negative decimal `m / 10^k`.  `parse_float_from_text` only ever
produces decimals of this shape (the regex `\d+(?:\.\d+)?`), and the
inference layer only adds and compares them, which is exact in this model
exactly as it is on the Python side for the magnitudes involved. -/
structure Dec where
  m : Nat
  k : Nat
  deriving DecidableEq, Repr

/-- Value-level `≥` between decimals. -/
def Dec.ge (a b : Dec) : Bool := decide (a.m * 10 ^ b.k ≥ b.m * 10 ^ a.k)

/-- `a ≥ n` for a natural threshold `n`. -/
def Dec.geNat (a : Dec) (n : Nat) : Bool := decide (a.m ≥ n * 10 ^ a.k)

/-- Python `a + b`. -/
def Dec.add (a b : Dec) : Dec := ⟨a.m * 10 ^ b.k + b.m * 10 ^ a.k, a.k + b.k⟩

/-- Python `max(a, b)` (keeps the first argument on ties). -/
def Dec.pyMax (a b : Dec) : Dec := if a.ge b then a else b

namespace DdqSignals

/-- ASCII digit test. -/
def isDigit (c : Char) : Bool := 48 ≤ c.toNat && c.toNat ≤ 57

/-- Digits to a natural number. -/
def digitsToNat (ds : List Char) : Nat :=
  ds.foldl (fun a c => a * 10 + (c.toNat - 48)) 0

/-- Leftmost match of the regex `\d+(?:\.\d+)?` (as used by
`re.findall(...)[0]` in `parse_float_from_text`), converted to a decimal. -/
def scanNumber : List Char → Option Dec
  | [] => none
  | c :: rest =>
    if isDigit c then
      let intDigits := (c :: rest).takeWhile isDigit
      let rest' := (c :: rest).dropWhile isDigit
      match rest' with
      | '.' :: r2 =>
        let fracDigits := r2.takeWhile isDigit
        if fracDigits.isEmpty then some ⟨digitsToNat intDigits, 0⟩
        else some ⟨digitsToNat (intDigits ++ fracDigits), fracDigits.length⟩
      | _ => some ⟨digitsToNat intDigits, 0⟩
    else scanNumber rest

/-- `parse_float_from_text` from `app/ddq_signals.py` (lines 91-111).  All
three branches extract the first decimal-number match; `float` of such a
match never raises, so the final `try` is the same extraction. -/
def parse_float_from_text (x : Option String) : Option Dec :=
  let s := _norm_low x
  if decide (s = "") then none
  else if pyStarts s "≥" || pyStarts s ">=" then scanNumber s.data
  else if pyStarts s "<" then scanNumber s.data
  else scanNumber s.data

/-- `has_negative_cues` from `app/ddq_signals.py` (no strip, only lower). -/
def has_negative_cues (text : Option String) : Bool :=
  let t := pyLower (text.getD "")
  ["unclear", "unknown", "not disclosed", "not provided", "cannot confirm",
   "no evidence", "insufficient", "incomplete", "fallback error"].any
    (fun k => pyIn k t)

end DdqSignals

/-! ### Answer store -/

/-- One raw questionnaire answer row, as the dict shape consumed by
`app/ddq_signals.py` (absent keys are `none` / `[]`). -/
structure AnswerRow where
  question_id : Option String := none
  raw_response : Option String := none
  confidence : Option String := none
  narrative_justification : Option String := none
  source_citations : List String := []
  deriving DecidableEq, Repr

/-- Association-list lookup, i.e. Python `dict.get` (keys are unique in
the dictionaries the application builds; lookup takes the first match). -/
def lookupStr {α : Type} (l : List (String × α)) (k : String) : Option α :=
  (l.find? (fun p => decide (p.1 = k))).map (·.2)

namespace DdqSignals

/-- `_key` from `app/ddq_signals.py`: `f"{sheet}::{qid.strip().upper()}"`. -/
def _key (sheet qid : String) : String :=
  sheet ++ "::" ++ pyUpper (pyStrip qid)

/-- The sorting score of `best_answer_for_question`:
`(confidence_rank, has_citations, has_narrative)`. -/
def score (a : AnswerRow) : Nat × Nat × Nat :=
  (confidence_rank a.confidence,
   if a.source_citations.isEmpty then 0 else 1,
   if decide (_norm a.narrative_justification = "") then 0 else 1)

/-- Lexicographic `≤` on score triples (Python tuple comparison). -/
def scoreLe (x y : Nat × Nat × Nat) : Bool :=
  decide (x.1 < y.1) ||
    (decide (x.1 = y.1) &&
      (decide (x.2.1 < y.2.1) ||
        (decide (x.2.1 = y.2.1) && decide (x.2.2 ≤ y.2.2))))

end DdqSignals

/-! ## Token classification (`app/token_type.py`) -/

/-- The A1.1 token-category dict (`{"primary", "secondary", "confidence"}`). -/
structure TokenCategory where
  primary : Option String := none
  secondary : Option String := none
  confidence : Option String := none
  deriving Repr

/-- The meta dict returned by `canonical_token_type_from_ddq`. -/
structure TokenTypeMeta where
  primary : Option String := none
  secondary : Option String := none
  confidence : Option String := none
  rationale : String := ""
  deriving Repr

/-- Words of a character list (split on Python `\s`). -/
def wordsAux (cur : List Char) : List Char → List (List Char)
  | [] => if cur.isEmpty then [] else [cur.reverse]
  | c :: rest =>
    if isPySpace c then
      if cur.isEmpty then wordsAux [] rest else cur.reverse :: wordsAux [] rest
    else wordsAux (c :: cur) rest

/-- Python `re.sub(r"\s+", " ", s).strip()`: collapse whitespace runs to a
single space and strip the ends. -/
def squashWs (s : String) : String :=
  ⟨List.intercalate [' '] (wordsAux [] s.data)⟩

namespace TokenType

/-- The `has(txt, *needles)` helper of `canonical_token_type_from_ddq`. -/
def has (txt : String) (needles : List String) : Bool :=
  needles.any (fun n => pyIn n txt)

/-- `canonical_token_type_from_ddq` from `app/token_type.py`: the
case-insensitive substring cascade mapping the primary/secondary category
pair to the canonical token type plus a meta record. -/
def canonical_token_type_from_ddq (tc : Option TokenCategory) :
    String × TokenTypeMeta :=
  match tc with
  | none =>
    ("other",
     { primary := none, secondary := none, confidence := none,
       rationale :=
         "No A1.1 token category found in DDQ; defaulted to \x27other\x27." })
  | some tc =>
    let primary := pyStrip (tc.primary.getD "")
    let secondary := pyStrip (tc.secondary.getD "")
    let p := pyLower primary
    let s := pyLower secondary
    let meta := fun (r : String) =>
      { primary := some primary, secondary := some secondary,
        confidence := tc.confidence, rationale := r : TokenTypeMeta }
    if has p ["stablecoin"] || has s ["stablecoin"] then
      if has p ["algorithm", "algo"] || has s ["algorithm", "algo"] then
        ("stablecoin_algorithmic",
         meta "DDQ category indicates a stablecoin with algorithmic characteristics.")
      else
        ("stablecoin_fiat",
         meta "DDQ category indicates a reserve/fiat-backed stablecoin (default stablecoin mapping).")
    else if has p ["wrapped"] || has s ["wrapped"] then
      ("wrapped", meta "DDQ category indicates a wrapped token.")
    else if has p ["security"] || has p ["tokenised"] || has s ["security"] ||
        has s ["tokenised"] then
      ("security_token", meta "DDQ category indicates a security/tokenised asset.")
    else if has p ["meme"] || has s ["meme"] then
      ("memecoin", meta "DDQ category indicates a memecoin.")
    else if has p ["defi"] || has s ["defi"] then
      ("defi", meta "DDQ category indicates a DeFi protocol token.")
    else if has p ["native"] && has p ["l1", "layer 1", "layer-1"] then
      ("native_l1", meta "DDQ category indicates a native Layer-1 network token.")
    else if has p ["native"] && has p ["l2", "layer 2", "layer-2"] then
      ("native_l2", meta "DDQ category indicates a native Layer-2 network token.")
    else if (has p ["govern"] && has s ["utility"]) ||
        (has p ["govern"] && has p ["utility"]) then
      ("governance_utility",
       meta "DDQ category indicates combined governance + utility role.")
    else if has p ["govern"] then
      ("governance", meta "DDQ category indicates a governance token role.")
    else if has p ["utility"] then
      ("utility", meta "DDQ category indicates a utility token role.")
    else
      let cleaned_primary := squashWs primary
      let cleaned_secondary := squashWs secondary
      ("other",
       { primary := if cleaned_primary = "" then none else some cleaned_primary,
         secondary :=
           if cleaned_secondary = "" then none else some cleaned_secondary,
         confidence := tc.confidence,
         rationale :=
           "DDQ category did not match known mappings; defaulted to \x27other\x27." })

end TokenType

/-- The `parsed_ddq["_token_type_inferred"]` value:
`{"token_type": token_type, **token_type_meta}`. -/
structure TokenTypeInferred where
  token_type : String
  primary : Option String := none
  secondary : Option String := none
  confidence : Option String := none
  rationale : String := ""
  deriving DecidableEq, Repr

/-- The resolved value of one signal (`SignalAnswer` dataclass of
`app/ddq_signals.py`). -/
structure SignalAnswer where
  signal : String
  sheet : String
  question_id : String
  raw_response : String
  response_norm : String
  confidence : String
  narrative : String
  citations : List String
  numeric : Option Dec
  deriving DecidableEq, Repr

/-- One evidence entry attached to a tag: `asdict(answer)` plus the
optional `"note"` key added when the rule supplies a note. -/
structure TagEvidenceItem where
  answer : SignalAnswer
  note : Option String
  deriving DecidableEq, Repr

/-- The parsed-DDQ dictionary, as consumed and mutated by the inference
core.  `answers_by_key` is the `"answers_by_key"` index,
`token_category` the `"token_category"` entry, `token_type_inferred` and
`tag_evidence` the `"_token_type_inferred"` / `"_tag_evidence"` keys
written by `infer_risk_tags_from_ddq`, and `rest` stands for every other
key of the dictionary, which the core never touches. -/
structure ParsedDDQ where
  answers_by_key : List (String × List AnswerRow) := []
  token_category : Option TokenCategory := none
  token_type_inferred : Option TokenTypeInferred := none
  tag_evidence : Option (List (String × List TagEvidenceItem)) := none
  rest : List (String × String) := []

namespace DdqSignals

/-- The candidate rows gathered by `best_answer_for_question`: for each
question id, the rows stored under `"<sheet>::<QID>"`, concatenated in
order. -/
def candidatesFor (parsed : ParsedDDQ) (sheet : String)
    (question_ids : List String) : List AnswerRow :=
  question_ids.flatMap
    (fun qid => (lookupStr parsed.answers_by_key (_key sheet qid)).getD [])

/-- `best_answer_for_question` from `app/ddq_signals.py` (lines 145-165):
gathers candidates and takes the head of the list stably sorted in
descending score order (`sorted(candidates, key=score, reverse=True)[0]`,
CPython's sort being stable). -/
def best_answer_for_question (parsed : ParsedDDQ) (sheet : String)
    (question_ids : List String) : Option AnswerRow :=
  let candidates := candidatesFor parsed sheet question_ids
  if candidates.isEmpty then none
  else (candidates.mergeSort (fun a b => scoreLe (score b) (score a))).head?

end DdqSignals

/-! ## The signal registry (`app/ddq_question_registry.py`) -/

namespace DdqQuestionRegistry

/-- A static lookup descriptor (`SignalSource` dataclass). -/
structure SignalSource where
  sheet : String
  question_ids : List String
  deriving Repr

/-- `QUESTION_ID_ALIASES` (empty in the source). -/
def QUESTION_ID_ALIASES : List (String × List String) := []

/-- Python `list(dict.fromkeys(l))`: order-preserving deduplication. -/
def dedupKeepFirst (l : List String) : List String :=
  l.foldl
    (fun acc x => if acc.any (fun y => decide (y = x)) then acc else acc ++ [x])
    []

/-- `expand_qids` from `app/ddq_question_registry.py`. -/
def expand_qids (qid : String) : List String :=
  let qid := pyStrip qid
  if decide (qid = "") then []
  else
    match lookupStr QUESTION_ID_ALIASES qid with
    | some alts => if alts.isEmpty then [qid] else dedupKeepFirst alts
    | none => [qid]

/-- `SIGNAL_SOURCES` from `app/ddq_question_registry.py`. -/
def SIGNAL_SOURCES : List (String × List SignalSource) :=
  [("privileged_functions_scope",
    [⟨"Technical & Protocol Security", expand_qids "B3.1"⟩]),
   ("emergency_pause_controls",
    [⟨"Technical & Protocol Security", expand_qids "B3.2"⟩]),
   ("privileged_roles_disclosure",
    [⟨"Technical & Protocol Security", expand_qids "C1.1"⟩]),
   ("timelock_present",
    [⟨"Technical & Protocol Security", expand_qids "C3.1"⟩]),
   ("upgradeability_profile",
    [⟨"Technical & Protocol Security", expand_qids "A4.3"⟩]),
   ("oracle_reliability",
    [⟨"Technical & Protocol Security", expand_qids "A4.2"⟩]),
   ("audit_coverage",
    [⟨"Technical & Protocol Security", expand_qids "A1.1"⟩]),
   ("audit_firm_quality",
    [⟨"Technical & Protocol Security", expand_qids "A1.2"⟩]),
   ("audit_recency",
    [⟨"Technical & Protocol Security", expand_qids "A1.3"⟩]),
   ("audit_reaudit_after_changes",
    [⟨"Technical & Protocol Security", expand_qids "A1.4"⟩]),
   ("audit_max_severity",
    [⟨"Technical & Protocol Security", expand_qids "A1.5"⟩]),
   ("liquidity_concentration",
    [⟨"Market & Liquidity Integrity", expand_qids "A2.3"⟩]),
   ("exit_feasibility",
    [⟨"Market & Liquidity Integrity", expand_qids "A2.2"⟩]),
   ("wash_trading_flags",
    [⟨"Market & Liquidity Integrity", expand_qids "B2.1"⟩]),
   ("team_allocation_pct",
    [⟨"Token Fundamentals & Governance", expand_qids "E2.1"⟩]),
   ("investor_allocation_pct",
    [⟨"Token Fundamentals & Governance", expand_qids "E2.2"⟩]),
   ("treasury_allocation_pct",
    [⟨"Token Fundamentals & Governance", expand_qids "E2.3"⟩]),
   ("unlock_schedule_disclosed",
    [⟨"Token Fundamentals & Governance", expand_qids "E2.4"⟩]),
   ("unlock_next_6m_pct",
    [⟨"Token Fundamentals & Governance", expand_qids "E2.5"⟩]),
   ("unlock_pacing_style",
    [⟨"Token Fundamentals & Governance", expand_qids "E3.2"⟩]),
   ("unlocks_milestone_link",
    [⟨"Token Fundamentals & Governance", expand_qids "E3.3"⟩]),
   ("governance_described_in_whitepaper",
    [⟨"Token Fundamentals & Governance", expand_qids "D3"⟩]),
   ("prior_governance_disputes",
    [⟨"Token Fundamentals & Governance", expand_qids "B2.7"⟩]),
   ("sanctions_designated_wallets",
    [⟨"AML & Sanctions Risk", expand_qids "B1.1"⟩]),
   ("sanctions_enforcement_actions",
    [⟨"AML & Sanctions Risk", expand_qids "B1.2"⟩]),
   ("sanctions_high_risk_geo_volume",
    [⟨"AML & Sanctions Risk", expand_qids "B2.1"⟩]),
   ("sanctions_structural_exposure",
    [⟨"AML & Sanctions Risk", expand_qids "B2.3"⟩]),
   ("sanctions_screening_controls",
    [⟨"AML & Sanctions Risk", expand_qids "D1.2"⟩])]

/-- `get_sources` from `app/ddq_question_registry.py`. -/
def get_sources (signal_name : String) : List SignalSource :=
  (lookupStr SIGNAL_SOURCES signal_name).getD []

end DdqQuestionRegistry

namespace DdqSignals

open DdqQuestionRegistry

/-- The loop body of `get_signal_answer`: try each source in order, build
the `SignalAnswer` from the first source whose best answer exists. -/
def resolveFromSources (parsed : ParsedDDQ) (signal_name : String) :
    List SignalSource → Option SignalAnswer
  | [] => none
  | src :: restSources =>
    match best_answer_for_question parsed src.sheet src.question_ids with
    | none => resolveFromSources parsed signal_name restSources
    | some ans =>
      let raw := _norm ans.raw_response
      some
        { signal := signal_name
          sheet := src.sheet
          question_id := _norm ans.question_id
          raw_response := raw
          response_norm := normalise_raw_response (some raw)
          confidence := _norm ans.confidence
          narrative := _norm ans.narrative_justification
          citations :=
            (ans.source_citations.map (fun c => pyStrip c)).filter
              (fun c => !(decide (c = "")))
          numeric := parse_float_from_text (some raw) }

/-- `get_signal_answer` from `app/ddq_signals.py` (lines 181-200). -/
def get_signal_answer (parsed : ParsedDDQ) (signal_name : String) :
    Option SignalAnswer :=
  resolveFromSources parsed signal_name (get_sources signal_name)

/-- `signal_missing` from `app/ddq_signals.py`. -/
def signal_missing (parsed : ParsedDDQ) (signal_name : String) : Bool :=
  (get_signal_answer parsed signal_name).isNone

end DdqSignals

/-! ## Listing context and requirement engine (`app/listing_requirements.py`) -/

/-- One refined tag object (`{id, include, reason}`-shaped dict returned by
the external tag-refinement collaborator).  `incl` models the `include`
key (`include` is a Lean keyword); it defaults to true and a missing id to
the empty string, exactly as `t.get` does. -/
structure RefinedTag where
  id : String := ""
  incl : Bool := true
  reason : String := ""
  deriving Repr

/-- One board-escalation record (dataclass- or dict-style; both access
paths of the source yield these two fields). -/
structure BoardEscalation where
  flag : Option String := none
  domain_name : Option String := none
  deriving Repr

/-- The posture vocabulary (the three strings used by the source). -/
inductive Posture
  | benign
  | intermediate
  | heightened
  deriving DecidableEq, Repr

/-- The `order` dict of `_rule_matches`:
`{"benign": 1, "intermediate": 2, "heightened": 3}`. -/
def Posture.rank : Posture → Nat
  | .benign => 1
  | .intermediate => 2
  | .heightened => 3

namespace ListingRequirements

/-- `_extract_effective_tag_ids` from `app/listing_requirements.py`
(lines 17-30): the sorted set of stripped non-empty ids of included tags. -/
def _extract_effective_tag_ids (refined_risk_tags : List RefinedTag) :
    List String :=
  pySortedSet
    (refined_risk_tags.filterMap (fun t =>
      if !t.incl then none
      else
        let tag_id := pyStrip t.id
        if decide (tag_id = "") then none else some tag_id))

/-- The context dict built by `_build_context` (its `tags` set is kept as
the canonical sorted list `_extract_effective_tag_ids` produces). -/
structure ListingContext where
  tags : List String
  overall_band : Int
  total_escalations : Nat
  esg_escalations : Nat
  technical_escalations : Nat
  governance_escalations : Nat
  reg_escalations : Nat
  has_speculative_profile : Bool
  has_hard_control : Bool
  posture : Posture
  deriving Repr

/-- The lower-cased domain of an escalation row. -/
def escDomain (e : BoardEscalation) : String := pyLower (e.domain_name.getD "")

/-- The ESG branch of the domain `elif` chain. -/
def isEsgDomain (d : String) : Bool :=
  pyIn "strategic" d || pyIn "esg" d || pyIn "reputational" d

/-- The technical branch. -/
def isTechDomain (d : String) : Bool := pyIn "technical" d || pyIn "protocol" d

/-- The governance branch. -/
def isGovDomain (d : String) : Bool :=
  pyIn "token fundamentals" d || pyIn "governance" d

/-- The regulatory branch. -/
def isRegDomain (d : String) : Bool := pyIn "regulatory" d || pyIn "legal" d

/-- The `speculative_tags` set of `_build_context`. -/
def speculative_tags : List String :=
  ["memecoin_hype_dependency_risk", "memecoin_no_utility_risk",
   "unsustainable_yield_risk", "behavioural_risk", "insider_unlocks_risk"]

/-- The `hard_control_tags` set of `_build_context`. -/
def hard_control_tags : List String :=
  ["admin_key_centralisation_risk", "upgradeability_risk",
   "smart_contract_risk", "gov_token_governance_concentration_risk"]

/-- `_build_context` from `app/listing_requirements.py` (lines 61-160):
counts real escalation triggers (via `_is_real_escalation_flag`), buckets
them by domain through the `elif` chain, derives the two profile booleans
by tag-set intersection, and classifies the posture by the fixed decision
table. -/
def _build_context (overall_band_numeric : Int)
    (board_escalations : List BoardEscalation)
    (refined_risk_tags : List RefinedTag) : ListingContext :=
  let tags := _extract_effective_tag_ids refined_risk_tags
  let real := board_escalations.filter (fun e => _is_real_escalation_flag e.flag)
  let total_escalations := real.length
  let esg_escalations := real.countP (fun e => isEsgDomain (escDomain e))
  let technical_escalations := real.countP (fun e =>
    !isEsgDomain (escDomain e) && isTechDomain (escDomain e))
  let governance_escalations := real.countP (fun e =>
    !isEsgDomain (escDomain e) && !isTechDomain (escDomain e) &&
      isGovDomain (escDomain e))
  let reg_escalations := real.countP (fun e =>
    !isEsgDomain (escDomain e) && !isTechDomain (escDomain e) &&
      !isGovDomain (escDomain e) && isRegDomain (escDomain e))
  let has_speculative_profile :=
    speculative_tags.any (fun t => tags.any (fun u => decide (u = t)))
  let has_hard_control :=
    hard_control_tags.any (fun t => tags.any (fun u => decide (u = t)))
  let band := overall_band_numeric
  let posture :=
    if decide (band ≥ 4) || decide (total_escalations ≥ 6) ||
        decide (esg_escalations ≥ 2) ||
        (has_speculative_profile && has_hard_control) then
      Posture.heightened
    else if decide (band ≥ 3) &&
        (decide (total_escalations ≥ 3) || has_hard_control) then
      Posture.intermediate
    else Posture.benign
  { tags := tags
    overall_band := band
    total_escalations := total_escalations
    esg_escalations := esg_escalations
    technical_escalations := technical_escalations
    governance_escalations := governance_escalations
    reg_escalations := reg_escalations
    has_speculative_profile := has_speculative_profile
    has_hard_control := has_hard_control
    posture := posture }

/-- The condition dict of a rule: every supported key, absent keys as
`none` / `[]` / `false` (`cond.get` defaults). -/
structure RuleConditions where
  min_overall_band : Option Int := none
  max_overall_band : Option Int := none
  min_total_escalations : Option Nat := none
  min_esg_escalations : Option Nat := none
  any_tag : List String := []
  all_tags : List String := []
  min_posture : Option Posture := none
  requires_speculative_profile : Bool := false
  requires_governance_centralisation : Bool := false
  deriving Repr

/-- `ListingRequirementRule` dataclass. -/
structure ListingRequirementRule where
  id : String
  title : String
  severity : String
  text : String
  conditions : RuleConditions
  deriving Repr

/-- `_rule_matches` from `app/listing_requirements.py` (lines 163-225):
all present condition keys must pass; each failing check is an early
`return False` in the source, so the checks combine as a conjunction. -/
def _rule_matches (rule : ListingRequirementRule) (ctx : ListingContext) :
    Bool :=
  let cond := rule.conditions
  (match cond.min_overall_band with
   | some b => !decide (ctx.overall_band < b)
   | none => true) &&
  (match cond.max_overall_band with
   | some b => !decide (ctx.overall_band > b)
   | none => true) &&
  (match cond.min_total_escalations with
   | some n => !decide (ctx.total_escalations < n)
   | none => true) &&
  (match cond.min_esg_escalations with
   | some n => !decide (ctx.esg_escalations < n)
   | none => true) &&
  (cond.any_tag.isEmpty ||
    cond.any_tag.any (fun t => ctx.tags.any (fun u => decide (u = t)))) &&
  (cond.all_tags.isEmpty ||
    cond.all_tags.all (fun t => ctx.tags.any (fun u => decide (u = t)))) &&
  (match cond.min_posture with
   | some p => !decide (ctx.posture.rank < p.rank)
   | none => true) &&
  (!cond.requires_speculative_profile || ctx.has_speculative_profile) &&
  (!cond.requires_governance_centralisation || ctx.has_hard_control)

/-- The `LISTING_REQUIREMENT_RULES` catalogue (7 entries). -/
def LISTING_REQUIREMENT_RULES : List ListingRequirementRule :=
  [{ id := "enhanced_structural_monitoring"
     title := "Treat this asset as a complex protocol in monitoring"
     severity := "Recommended"
     text := "Classify this asset in your higher-complexity protocol tier and ensure it is included in existing monitoring for major upgrades, security incidents and governance changes, with clear internal triggers for re-review if a serious incident occurs."
     conditions :=
       { any_tag := ["complex_protocol_design_risk", "upgradeability_risk",
                     "smart_contract_risk", "bridge_dependency_risk"]
         min_posture := some Posture.benign } },
   { id := "treasury_concentration_watch"
     title := "Watch treasury and reserve activity"
     severity := "Recommended"
     text := "Track public disclosures and significant on-chain movements relating to the project’s treasury or reserves, and treat adverse developments (for example large unexplained sales or governance controversy) as triggers for risk re-review."
     conditions :=
       { any_tag := ["treasury_concentration_risk"]
         min_posture := some Posture.benign } },
   { id := "governance_and_admin_controls"
     title := "Document admin-key and governance controls"
     severity := "Recommended"
     text := "Maintain a documented internal view of admin-key holders, upgrade processes and governance controls for this asset, and ensure client disclosures explain that a small group can materially influence or interrupt token behaviour."
     conditions :=
       { any_tag := ["admin_key_centralisation_risk",
                     "gov_token_governance_concentration_risk"]
         min_posture := some Posture.heightened
         min_total_escalations := some 1 } },
   { id := "speculative_profile_retail_controls"
     title := "Tighter guard-rails for speculative profile"
     severity := "Required"
     text := "For this asset, apply tighter guard-rails for retail and smaller institutional clients (for example lower exposure caps, stricter appropriateness thresholds and clearer front-end warnings) reflecting its speculative, controversy-prone profile and concentration of control."
     conditions :=
       { requires_speculative_profile := true
         min_posture := some Posture.heightened } },
   { id := "esg_reputational_review"
     title := "ESG and reputational review before/on listing"
     severity := "Required"
     text := "Undertake an ESG and reputational assessment (including political, governance and sanctions-adjacent issues) and ensure the outcome is explicitly considered by the appropriate internal committee when approving, maintaining or suspending listing for this asset."
     conditions :=
       { min_esg_escalations := some 1
         min_posture := some Posture.intermediate } },
   { id := "committee_signoff_required"
     title := "Formal committee sign-off"
     severity := "Required"
     text := "Ensure initial listing and any future suspension or delisting decisions for this asset are approved by an internal committee with full visibility of the DDQ assessment, board-level escalation points and incident history."
     conditions :=
       { min_total_escalations := some 4
         min_posture := some Posture.intermediate } },
   { id := "scheduled_risk_reassessment"
     title := "Scheduled risk reassessment"
     severity := "Recommended"
     text := "Schedule periodic reassessment of this asset’s risk profile, including review of DDQ responses, incidents, regulatory developments and key on-chain and market metrics, at least annually or after any major event."
     conditions := { min_overall_band := some 3 } }]

/-- One output requirement (the dict appended by
`build_listing_requirements`). -/
structure Requirement where
  id : String
  title : String
  severity : String
  text : String
  deriving DecidableEq, Repr

/-- The output record of one rule. -/
def ruleOutput (rule : ListingRequirementRule) : Requirement :=
  { id := rule.id, title := rule.title, severity := rule.severity,
    text := rule.text }

/-- The catalogue loop of `build_listing_requirements`: skip non-matching
rules and already-seen ids, otherwise emit and remember the id. -/
def reqLoop (ctx : ListingContext) :
    List ListingRequirementRule → List String → List Requirement
  | [], _ => []
  | rule :: restRules, seen =>
    if !_rule_matches rule ctx then reqLoop ctx restRules seen
    else if seen.any (fun s => decide (s = rule.id)) then
      reqLoop ctx restRules seen
    else ruleOutput rule :: reqLoop ctx restRules (rule.id :: seen)

/-- `build_listing_requirements` with the catalogue as a parameter (the
source closes over the module-level `LISTING_REQUIREMENT_RULES`). -/
def build_listing_requirements_over (rules : List ListingRequirementRule)
    (overall_band_numeric : Int) (board_escalations : List BoardEscalation)
    (refined_risk_tags : List RefinedTag) : List Requirement :=
  reqLoop (_build_context overall_band_numeric board_escalations
    refined_risk_tags) rules []

/-- `build_listing_requirements` from `app/listing_requirements.py`
(lines 362-395). -/
def build_listing_requirements (overall_band_numeric : Int)
    (board_escalations : List BoardEscalation)
    (refined_risk_tags : List RefinedTag) : List Requirement :=
  build_listing_requirements_over LISTING_REQUIREMENT_RULES
    overall_band_numeric board_escalations refined_risk_tags

/-- `build_listing_context` from `app/listing_requirements.py`. -/
def build_listing_context (overall_band_numeric : Int)
    (board_escalations : List BoardEscalation)
    (refined_risk_tags : List RefinedTag) : ListingContext :=
  _build_context overall_band_numeric board_escalations refined_risk_tags

end ListingRequirements

/-! ## Risk tag inference (`app/risk_tag_inference.py`) -/

namespace RiskTagInference

open DdqSignals

/-- `_is_unknownish` from `app/risk_tag_inference.py` (lines 22-25). -/
def _is_unknownish (ans : Option SignalAnswer) : Bool :=
  match ans with
  | none => true
  | some a =>
    (decide (a.response_norm = "unknown") || decide (a.response_norm = "na")) ||
      decide (normalise_raw_response (some a.raw_response) = "unknown")

/-- `_pct` from `app/risk_tag_inference.py`. -/
def _pct (ans : Option SignalAnswer) : Option Dec := ans.bind (fun a => a.numeric)

/-- The `ans and ans.response_norm in {...}` idiom of the rule battery. -/
def normIn (ans : Option SignalAnswer) (buckets : List String) : Bool :=
  match ans with
  | none => false
  | some a => buckets.any (fun x => decide (x = a.response_norm))

/-- The `ans and any(k in ans.raw_response.lower() for k in [...])` idiom. -/
def rawHas (ans : Option SignalAnswer) (keys : List String) : Bool :=
  match ans with
  | none => false
  | some a => keys.any (fun k => pyIn k (pyLower a.raw_response))

/-- The mutable state of the closure `add` inside
`infer_risk_tags_from_ddq`: the `tags` set (kept as an insertion-ordered
duplicate-free list) and the `evidence` dict (insertion-ordered). -/
structure TagState where
  tags : List String := []
  evidence : List (String × List TagEvidenceItem) := []

/-- `evidence.setdefault(tag, []).extend(ev)`: append to the entry of
`tag`, creating it at the end if absent. -/
def evExtend : List (String × List TagEvidenceItem) → String →
    List TagEvidenceItem → List (String × List TagEvidenceItem)
  | [], k, v => [(k, v)]
  | (k', v') :: rest, k, v =>
    if decide (k' = k) then (k', v' ++ v) :: rest
    else (k', v') :: evExtend rest k v

/-- The closure `add(tag, *ans, note=...)` of `infer_risk_tags_from_ddq`:
adds the tag to the set and, when at least one answer is present, extends
the evidence entry with `asdict(answer)` records (plus the note when
non-empty). -/
def addTag (st : TagState) (tag : String) (anss : List (Option SignalAnswer))
    (note : String) : TagState :=
  let tags :=
    if st.tags.any (fun t => decide (t = tag)) then st.tags
    else st.tags ++ [tag]
  let ev := anss.filterMap (fun a =>
    a.map (fun x =>
      ({ answer := x, note := if decide (note = "") then none else some note }
        : TagEvidenceItem)))
  let evidence := if ev.isEmpty then st.evidence else evExtend st.evidence tag ev
  { tags := tags, evidence := evidence }

/-- The resolved signals and derived token type that the rule battery of
`infer_risk_tags_from_ddq` reads (the local variables bound at the top of
the function). -/
structure InferCtx where
  token_type : String
  privileged_scope : Option SignalAnswer
  pause_controls : Option SignalAnswer
  privileged_disclosure : Option SignalAnswer
  timelock : Option SignalAnswer
  upgradeability : Option SignalAnswer
  oracle_rel : Option SignalAnswer
  liquidity_conc : Option SignalAnswer
  exit_feas : Option SignalAnswer
  wash_flags : Option SignalAnswer
  team_alloc : Option SignalAnswer
  inv_alloc : Option SignalAnswer
  tres_alloc : Option SignalAnswer
  unlock_disclosed : Option SignalAnswer
  unlock_next6 : Option SignalAnswer
  unlock_milestone : Option SignalAnswer
  gov_whitepaper : Option SignalAnswer
  gov_disputes : Option SignalAnswer
  sanc_designated : Option SignalAnswer
  sanc_enforcement : Option SignalAnswer
  sanc_geo_volume : Option SignalAnswer
  sanc_structural : Option SignalAnswer
  sanc_screening : Option SignalAnswer

/-- The `get_signal_answer` bindings of `infer_risk_tags_from_ddq`
(lines 50-79). -/
def buildInferCtx (p1 : ParsedDDQ) (token_type : String) : InferCtx :=
  { token_type := token_type
    privileged_scope := get_signal_answer p1 "privileged_functions_scope"
    pause_controls := get_signal_answer p1 "emergency_pause_controls"
    privileged_disclosure := get_signal_answer p1 "privileged_roles_disclosure"
    timelock := get_signal_answer p1 "timelock_present"
    upgradeability := get_signal_answer p1 "upgradeability_profile"
    oracle_rel := get_signal_answer p1 "oracle_reliability"
    liquidity_conc := get_signal_answer p1 "liquidity_concentration"
    exit_feas := get_signal_answer p1 "exit_feasibility"
    wash_flags := get_signal_answer p1 "wash_trading_flags"
    team_alloc := get_signal_answer p1 "team_allocation_pct"
    inv_alloc := get_signal_answer p1 "investor_allocation_pct"
    tres_alloc := get_signal_answer p1 "treasury_allocation_pct"
    unlock_disclosed := get_signal_answer p1 "unlock_schedule_disclosed"
    unlock_next6 := get_signal_answer p1 "unlock_next_6m_pct"
    unlock_milestone := get_signal_answer p1 "unlocks_milestone_link"
    gov_whitepaper := get_signal_answer p1 "governance_described_in_whitepaper"
    gov_disputes := get_signal_answer p1 "prior_governance_disputes"
    sanc_designated := get_signal_answer p1 "sanctions_designated_wallets"
    sanc_enforcement := get_signal_answer p1 "sanctions_enforcement_actions"
    sanc_geo_volume := get_signal_answer p1 "sanctions_high_risk_geo_volume"
    sanc_structural := get_signal_answer p1 "sanctions_structural_exposure"
    sanc_screening := get_signal_answer p1 "sanctions_screening_controls" }

/-- Admin-key centralisation rule (lines 83-95). -/
def stepAdminKey (c : InferCtx) (st : TagState) : TagState :=
  if _is_unknownish c.privileged_scope ||
      _is_unknownish c.privileged_disclosure ||
      _is_unknownish c.pause_controls ||
      normIn c.privileged_disclosure ["partial"] then
    addTag st "admin_key_centralisation_risk"
      [c.privileged_scope, c.privileged_disclosure, c.pause_controls]
      "Privileged controls exist but scope/disclosure/controls are incomplete or unclear."
  else st

/-- Upgradeability rule, gating the timelock-absence rule (lines 97-100). -/
def stepUpgradeability (c : InferCtx) (st : TagState) : TagState :=
  if normIn c.upgradeability ["yes", "partial", "other"] then
    let stA := addTag st "upgradeability_risk" [c.upgradeability, c.timelock]
      "Contracts appear upgradeable (even if limited)."
    if normIn c.timelock ["no", "unknown", "partial"] then
      addTag stA "timelock_absence_risk" [c.timelock]
        "Upgrade/parameter changes may not be adequately timelocked."
    else stA
  else st

/-- Governance dispute history rule (lines 102-103). -/
def stepGovDisputes (c : InferCtx) (st : TagState) : TagState :=
  if normIn c.gov_disputes ["yes"] then
    addTag st "governance_dispute_history_risk" [c.gov_disputes] ""
  else st

/-- Structural smart-contract dependency rule (lines 107-108). -/
def stepSmartContract (c : InferCtx) (st : TagState) : TagState :=
  if ["defi", "governance", "governance_utility", "utility"].any
      (fun x => decide (x = c.token_type)) then
    addTag st "smart_contract_risk" [] ""
  else st

/-- Oracle dependency rule, gating the liquidation-mechanism rule
(lines 110-115). -/
def stepOracle (c : InferCtx) (st : TagState) : TagState :=
  match c.oracle_rel with
  | none => st
  | some a =>
    if !decide (a.response_norm = "na") then
      let low := pyLower a.raw_response
      if !pyIn "no oracle" low && !pyIn "not oracle" low then
        let stB := addTag st "oracle_dependency_risk" [some a] ""
        if ["partial", "unknown"].any (fun x => decide (x = a.response_norm))
        then
          addTag stB "defi_liquidation_mechanism_risk" [some a]
            "Oracle design/reliability may affect liquidations."
        else stB
      else st
    else st

/-- Complex protocol design rule (lines 117-121). -/
def stepComplexProtocol (c : InferCtx) (st : TagState) : TagState :=
  if rawHas c.oracle_rel ["mixed", "custom", "multi", "oracle-agnostic"] ||
      (_is_unknownish c.privileged_scope && _is_unknownish c.pause_controls)
  then
    addTag st "complex_protocol_design_risk"
      [c.oracle_rel, c.privileged_scope, c.pause_controls] ""
  else st

/-- Liquidity concentration rule (lines 125-126). -/
def stepLiquidityConc (c : InferCtx) (st : TagState) : TagState :=
  if rawHas c.liquidity_conc ["concentrated", "few"] then
    addTag st "liquidity_concentration_risk" [c.liquidity_conc] ""
  else st

/-- Low liquidity rule (lines 128-129). -/
def stepLowLiquidity (c : InferCtx) (st : TagState) : TagState :=
  if rawHas c.exit_feas ["significant care", "difficult", "limited"] then
    addTag st "low_liquidity_risk" [c.exit_feas] ""
  else st

/-- Wash trading rule with its negative exclusion (lines 131-134). -/
def stepWashTrading (c : InferCtx) (st : TagState) : TagState :=
  match c.wash_flags with
  | none => st
  | some a =>
    let low := pyLower a.raw_response
    if (["significant", "concern", "flags", "elevated"].any
          (fun k => pyIn k low)) && !pyIn "no significant" low then
      addTag st "wash_trading_risk" [some a] ""
    else st

/-- Treasury concentration rule (lines 138-143). -/
def stepTreasuryConc (c : InferCtx) (st : TagState) : TagState :=
  let r := (_pct c.tres_alloc).getD ⟨0, 0⟩
  if r.geNat 25 then
    addTag st "treasury_concentration_risk" [c.tres_alloc]
      "Large treasury/foundation allocation suggests concentration risk."
  else st

/-- Tokenomics concentration rule (lines 145-152). -/
def stepTokenomicsConc (c : InferCtx) (st : TagState) : TagState :=
  let t := (_pct c.team_alloc).getD ⟨0, 0⟩
  let i := (_pct c.inv_alloc).getD ⟨0, 0⟩
  let r := (_pct c.tres_alloc).getD ⟨0, 0⟩
  if ((t.add i).add r).geNat 60 || ((t.pyMax i).pyMax r).geNat 35 then
    addTag st "tokenomics_concentration_risk"
      [c.team_alloc, c.inv_alloc, c.tres_alloc]
      "Large insider/treasury allocations may increase concentration and supply overhang risk."
  else st

/-- Unlock-schedule-disclosed rule (lines 154-155). -/
def stepUnlockDisclosed (c : InferCtx) (st : TagState) : TagState :=
  if normIn c.unlock_disclosed ["no", "unknown"] then
    addTag st "unlock_schedule_uncertainty_risk" [c.unlock_disclosed] ""
  else st

/-- Near-term unlock rule (lines 156-157). -/
def stepUnlockNext6 (c : InferCtx) (st : TagState) : TagState :=
  if normIn c.unlock_next6 ["unknown"] then
    addTag st "unlock_schedule_uncertainty_risk" [c.unlock_next6]
      "Near-term unlock percentage is unclear."
  else st

/-- Insider-unlock rule (lines 158-159). -/
def stepUnlockMilestone (c : InferCtx) (st : TagState) : TagState :=
  if normIn c.unlock_milestone ["no"] then
    addTag st "insider_unlocks_risk" [c.unlock_milestone]
      "Unlocks are not tied to adoption milestones."
  else st

/-- Governance documentation rule (lines 163-164). -/
def stepGovWhitepaper (c : InferCtx) (st : TagState) : TagState :=
  if normIn c.gov_whitepaper ["no"] then
    addTag st "governance_documentation_gaps_risk" [c.gov_whitepaper] ""
  else st

/-- Unknown-count disclosure rule (lines 166-172). -/
def stepUnknownCount (c : InferCtx) (st : TagState) : TagState :=
  let unknown_count :=
    [c.privileged_scope, c.pause_controls, c.privileged_disclosure,
     c.oracle_rel, c.unlock_next6].countP _is_unknownish
  if unknown_count ≥ 2 then
    addTag st "poor_disclosure_quality_risk" []
      "Multiple key DDQ controls/metrics are unknown or unclear."
  else st

/-- Negative-narrative-cue disclosure rule (lines 174-176). -/
def stepNegativeCues (c : InferCtx) (st : TagState) : TagState :=
  [c.privileged_scope, c.pause_controls, c.privileged_disclosure,
   c.oracle_rel].foldl
    (fun st a =>
      match a with
      | none => st
      | some x =>
        if has_negative_cues (some x.narrative) then
          addTag st "poor_disclosure_quality_risk" [some x] ""
        else st)
    st

/-- Designated-wallets sanctions rule (lines 181-182). -/
def stepSancDesignated (c : InferCtx) (st : TagState) : TagState :=
  if normIn c.sanc_designated ["yes", "partial"] then
    addTag st "sanctions_designated_wallets_risk" [c.sanc_designated]
      "Token/project has been linked to designated wallets/entities."
  else st

/-- Enforcement-actions sanctions rule (lines 185-186). -/
def stepSancEnforcement (c : InferCtx) (st : TagState) : TagState :=
  if normIn c.sanc_enforcement ["yes", "partial"] then
    addTag st "sanctions_enforcement_watch_risk" [c.sanc_enforcement]
      "Public enforcement / regulatory actions referencing sanctions risk."
  else st

/-- Structural-exposure sanctions rule (lines 189-192). -/
def stepSancStructural (c : InferCtx) (st : TagState) : TagState :=
  match c.sanc_structural with
  | none => st
  | some a =>
    if ["high", "structural", "material"].any
        (fun k => pyIn k (pyLower a.raw_response)) ||
        ["yes", "partial", "unknown"].any
          (fun x => decide (x = a.response_norm)) then
      addTag st "sanctions_exposure_risk" [some a]
        "DDQ indicates structural sanctions / high-risk ecosystem exposure."
    else st

/-- High-risk-geography sanctions rule (lines 194-197). -/
def stepSancGeoVolume (c : InferCtx) (st : TagState) : TagState :=
  match c.sanc_geo_volume with
  | none => st
  | some a =>
    if ["high", "material", "meaningful", "unknown"].any
        (fun k => pyIn k (pyLower a.raw_response)) ||
        ["partial", "unknown"].any
          (fun x => decide (x = a.response_norm)) then
      addTag st "sanctions_exposure_risk" [some a]
        "DDQ indicates non-trivial or uncertain exposure to high-risk jurisdictions."
    else st

/-- Screening-controls sanctions rule (lines 200-201). -/
def stepSancScreening (c : InferCtx) (st : TagState) : TagState :=
  if normIn c.sanc_screening ["no", "partial", "unknown"] then
    addTag st "sanctions_screening_controls_risk" [c.sanc_screening]
      "Sanctions screening controls appear partial/unclear or absent."
  else st

/-- The whole rule battery, in source order. -/
def runInferSteps (c : InferCtx) (st : TagState) : TagState :=
  stepSancScreening c (stepSancGeoVolume c (stepSancStructural c
    (stepSancEnforcement c (stepSancDesignated c (stepNegativeCues c
      (stepUnknownCount c (stepGovWhitepaper c (stepUnlockMilestone c
        (stepUnlockNext6 c (stepUnlockDisclosed c (stepTokenomicsConc c
          (stepTreasuryConc c (stepWashTrading c (stepLowLiquidity c
            (stepLiquidityConc c (stepComplexProtocol c (stepOracle c
              (stepSmartContract c (stepGovDisputes c (stepUpgradeability c
                (stepAdminKey c st)))))))))))))))))))))

/-- `infer_risk_tags_from_ddq` from `app/risk_tag_inference.py`
(lines 34-204).  The Python function mutates `parsed_ddq` in place (keys
`"_token_type_inferred"` and `"_tag_evidence"`) and returns the sorted tag
list; here it returns the pair of the sorted tag list and the updated
dictionary.  The rule battery is split into one named step per source rule
block, applied in source order. -/
def infer_risk_tags_from_ddq (parsed : ParsedDDQ) :
    List String × ParsedDDQ :=
  let tt := TokenType.canonical_token_type_from_ddq parsed.token_category
  let parsed1 : ParsedDDQ :=
    { parsed with
        token_type_inferred := some
          { token_type := tt.1
            primary := tt.2.primary
            secondary := tt.2.secondary
            confidence := tt.2.confidence
            rationale := tt.2.rationale } }
  let c := buildInferCtx parsed1 tt.1
  let finalState := runInferSteps c {}
  (pySortedSet finalState.tags,
   { parsed1 with tag_evidence := some finalState.evidence })

end RiskTagInference

/-! ## Spec-side definitions used to state the claims -/

/-- Modelled from the spec (§4.1): the normalisation cascade as the spec
words it — empty, the n/a set, unknown markers, exact-or-prefix yes
markers, the no step (exact-or-prefix no markers plus the
"none disclosed/identified/reported/known" equivalence class), partial
markers, otherwise other. -/
def normalise_spec (raw : Option String) : String :=
  let s := DdqSignals._norm_low raw
  if decide (s = "") then "unknown"
  else if ["n/a", "na", "not applicable", "not-applicable"].any
      (fun x => decide (x = s)) then "na"
  else if ["unknown", "unclear", "not disclosed", "not provided", "tbc",
      "to be confirmed"].any (fun k => pyIn k s) then "unknown"
  else if ["yes", "y", "true"].any (fun x => decide (x = s)) ||
      pyStarts s "yes" then "yes"
  else if ["no", "n", "false"].any (fun x => decide (x = s)) ||
      pyStarts s "no" ||
      ["none disclosed", "none identified", "none reported",
        "none known"].any (fun x => decide (x = s)) ||
      pyStarts s "none disclosed" || pyStarts s "none identified" then "no"
  else if ["partial", "partially", "mixed", "limited", "some", "in part",
      "incomplete"].any (fun k => pyIn k s) then "partial"
  else "other"

/-- The set of included tag ids of a refined-tag list, as the claim about
the tag-refinement interface words it: `include` true and a non-empty id. -/
def includedIds (tags : List RefinedTag) : List String :=
  tags.filterMap (fun t =>
    if t.incl && !decide (t.id = "") then some t.id else none)

/-! ### Order facts about the primitives -/

theorem charToNat_inj {a b : Char} (h : a.toNat = b.toNat) : a = b :=
  Char.eq_of_val_eq (UInt32.toNat.inj h)

theorem lexLt_irrefl : ∀ l, lexLt l l = false
  | [] => rfl
  | _ :: as => by simp [lexLt, lexLt_irrefl as]

theorem lexLt_asymm : ∀ {a b}, lexLt a b = true → lexLt b a = false
  | [], [], h => by simp [lexLt] at h
  | [], _ :: _, _ => rfl
  | _ :: _, [], h => by simp [lexLt] at h
  | a :: as, b :: bs, h => by
    simp only [lexLt, Bool.or_eq_true, Bool.and_eq_true, decide_eq_true_eq] at h ⊢
    rcases h with h | ⟨h1, h2⟩
    · simp only [Bool.or_eq_false_iff, Bool.and_eq_false_iff]
      exact ⟨by simp; omega, Or.inl (by simp; omega)⟩
    · simp only [Bool.or_eq_false_iff, Bool.and_eq_false_iff]
      exact ⟨by simp; omega, Or.inr (lexLt_asymm h2)⟩

theorem lexLt_connex : ∀ {a b}, lexLt a b = false → lexLt b a = false → a = b
  | [], [], _, _ => rfl
  | [], _ :: _, h, _ => Bool.noConfusion (show (true : Bool) = false from h)
  | _ :: _, [], _, h => Bool.noConfusion (show (true : Bool) = false from h)
  | a :: as, b :: bs, h, h' => by
    simp only [lexLt, Bool.or_eq_false_iff, Bool.and_eq_false_iff,
      decide_eq_false_iff_not] at h h'
    obtain ⟨hab, h2⟩ := h
    obtain ⟨hba, h2'⟩ := h'
    have hn : a.toNat = b.toNat := by omega
    have : a = b := charToNat_inj hn
    subst this
    rcases h2 with h2 | h2
    · exact absurd rfl h2
    · rcases h2' with h2' | h2'
      · exact absurd rfl h2'
      · rw [lexLt_connex h2 h2']

theorem lexLt_trans : ∀ {a b c}, lexLt a b = true → lexLt b c = true →
    lexLt a c = true
  | [], [], _, h, _ => by simp [lexLt] at h
  | [], _ :: _, [], _, h => by simp [lexLt] at h
  | [], _ :: _, _ :: _, _, _ => rfl
  | _ :: _, [], _, h, _ => by simp [lexLt] at h
  | _ :: _, _ :: _, [], _, h => by simp [lexLt] at h
  | a :: as, b :: bs, c :: cs, h, h' => by
    simp only [lexLt, Bool.or_eq_true, Bool.and_eq_true, decide_eq_true_eq] at h h' ⊢
    rcases h with h | ⟨h1, h2⟩ <;> rcases h' with h' | ⟨h1', h2'⟩
    · exact Or.inl (by omega)
    · exact Or.inl (by omega)
    · exact Or.inl (by omega)
    · exact Or.inr ⟨by omega, lexLt_trans h2 h2'⟩

theorem strLt_irrefl (a : String) : strLt a a = false := lexLt_irrefl _

theorem strLt_asymm {a b : String} (h : strLt a b = true) : strLt b a = false :=
  lexLt_asymm h

theorem strLt_connex {a b : String} (h : strLt a b = false)
    (h' : strLt b a = false) : a = b := by
  cases a; cases b; exact congrArg String.mk (lexLt_connex h h')

theorem strLt_trans {a b c : String} (h : strLt a b = true)
    (h' : strLt b c = true) : strLt a c = true := lexLt_trans h h'

instance : IsAntisymm String (fun a b => strLt a b = true) where
  antisymm := fun a b h h' => by
    have := strLt_asymm h
    rw [this] at h'
    cases h'

theorem mem_insortNodup {s x : String} : ∀ {l : List String},
    s ∈ insortNodup x l ↔ s = x ∨ s ∈ l
  | [] => by simp [insortNodup]
  | y :: ys => by
    simp only [insortNodup]
    split
    · simp [or_comm, or_assoc, or_left_comm]
    · split
      · rename_i hxy
        simp only [decide_eq_true_eq] at hxy
        subst hxy
        simp only [List.mem_cons]
        constructor
        · exact fun h => Or.inr h
        · rintro (h | h)
          · exact Or.inl h
          · exact h
      · simp only [List.mem_cons, mem_insortNodup]
        constructor
        · rintro (h | h | h)
          · exact Or.inr (Or.inl h)
          · exact Or.inl h
          · exact Or.inr (Or.inr h)
        · rintro (h | h | h)
          · exact Or.inr (Or.inl h)
          · exact Or.inl h
          · exact Or.inr (Or.inr h)

theorem pairwise_insortNodup {x : String} : ∀ {l : List String},
    l.Pairwise (fun a b => strLt a b = true) →
    (insortNodup x l).Pairwise (fun a b => strLt a b = true)
  | [], _ => by simp [insortNodup]
  | y :: ys, h => by
    simp only [List.pairwise_cons] at h
    obtain ⟨hy, hys⟩ := h
    simp only [insortNodup]
    split
    · rename_i hxy
      refine List.Pairwise.cons ?_ (List.Pairwise.cons hy hys)
      intro b hb
      rcases List.mem_cons.mp hb with rfl | hb
      · exact hxy
      · exact strLt_trans hxy (hy b hb)
    · split
      · exact List.Pairwise.cons hy hys
      · rename_i hlt heq
        simp only [decide_eq_true_eq] at heq
        simp only [Bool.not_eq_true] at hlt
        refine List.Pairwise.cons ?_ (pairwise_insortNodup hys)
        intro b hb
        rcases mem_insortNodup.mp hb with rfl | hb
        · cases hyx : strLt y b
          · exact absurd (strLt_connex hyx hlt).symm heq
          · rfl
        · exact hy b hb

theorem pairwise_pySortedSet : ∀ l : List String,
    (pySortedSet l).Pairwise (fun a b => strLt a b = true)
  | [] => List.Pairwise.nil
  | _ :: xs => pairwise_insortNodup (pairwise_pySortedSet xs)

theorem mem_pySortedSet {s : String} : ∀ {l : List String},
    s ∈ pySortedSet l ↔ s ∈ l
  | [] => Iff.rfl
  | x :: xs => by
    simp only [pySortedSet, List.foldr_cons, List.mem_cons]
    rw [show (List.foldr insortNodup [] xs) = pySortedSet xs from rfl] at *
    rw [mem_insortNodup, mem_pySortedSet]

theorem nodup_pySortedSet (l : List String) : (pySortedSet l).Nodup := by
  have := pairwise_pySortedSet l
  exact this.imp (fun {a b} h => by
    intro hab
    subst hab
    rw [strLt_irrefl] at h
    cases h)

/-- Python `sorted(set(·))` is canonical: member-equal lists produce equal
results. -/
theorem pySortedSet_eq_of_mem_iff {l₁ l₂ : List String}
    (h : ∀ s, s ∈ l₁ ↔ s ∈ l₂) : pySortedSet l₁ = pySortedSet l₂ := by
  refine List.eq_of_perm_of_sorted ?_
    (pairwise_pySortedSet l₁) (pairwise_pySortedSet l₂)
  exact (List.perm_ext_iff_of_nodup (nodup_pySortedSet l₁)
    (nodup_pySortedSet l₂)).mpr
    (fun a => by rw [mem_pySortedSet, mem_pySortedSet]; exact h a)

/-! ## Helper lemmas -/

theorem anyEq_mem {t : String} {l : List String} :
    (l.any (fun u => decide (u = t)) = true) ↔ t ∈ l := by
  rw [List.any_eq_true]
  constructor
  · rintro ⟨x, hx, h⟩
    simp only [decide_eq_true_eq] at h
    exact h ▸ hx
  · intro h
    exact ⟨t, h, by simp⟩

/-- The parser classifier implements the spec's keyword rule. -/
theorem parserClassifier_eq_spec (flag : Option String) :
    DdqParser._is_real_board_trigger flag = spec_is_real_trigger flag := by
  cases flag with
  | none => rfl
  | some f =>
    simp only [DdqParser._is_real_board_trigger, spec_is_real_trigger,
      DdqParser.NON_ESCALATION_FLAGS, DdqParser.REAL_ESCALATION_KEYWORDS,
      List.any_cons, List.any_nil]
    by_cases h1 : pyLower (pyStrip f) = ""
    · simp +decide [h1]
    · have h1' : ¬("" = pyLower (pyStrip f)) := fun h => h1 h.symm
      by_cases h2 : "no" = pyLower (pyStrip f)
      · simp +decide [← h2]
      · by_cases h3 : "false" = pyLower (pyStrip f)
        · simp +decide [← h3]
        · by_cases h4 : "0" = pyLower (pyStrip f)
          · simp +decide [← h4]
          · by_cases h5 : "no review" = pyLower (pyStrip f)
            · simp +decide [← h5]
            · simp [h1, h1', h2, h3, h4, h5]

/-- Every normalisation bucket follows the spec's cascade. -/
theorem normalise_eq_spec (raw : Option String) :
    DdqSignals.normalise_raw_response raw = normalise_spec raw := by
  simp only [DdqSignals.normalise_raw_response, normalise_spec]
  generalize DdqSignals._norm_low raw = s
  generalize decide (s = "") = c0
  generalize (["n/a", "na", "not applicable", "not-applicable"].any
    (fun x => decide (x = s))) = c1
  generalize (["unknown", "unclear", "not disclosed", "not provided", "tbc",
    "to be confirmed"].any (fun k => pyIn k s)) = c2
  generalize (["yes", "y", "true"].any (fun x => decide (x = s))) = c3
  generalize pyStarts s "yes" = c4
  generalize (["no", "n", "false"].any (fun x => decide (x = s))) = c5
  generalize pyStarts s "no" = c6
  generalize (["none disclosed", "none identified", "none reported",
    "none known"].any (fun x => decide (x = s))) = c7
  generalize pyStarts s "none disclosed" = c8
  generalize pyStarts s "none identified" = c9
  cases c0 <;> cases c1 <;> cases c2 <;> cases c3 <;> cases c4 <;>
    cases c5 <;> cases c6 <;> cases c7 <;> cases c8 <;> cases c9 <;> rfl

/-! ## Claims -/

/-- C1: the spec requires the escalation "real trigger" classifier to be
shared verbatim between the DDQ parser, the report snapshot builder and
the listing-requirement engine.  The parser and snapshot classifiers are
indeed identical, but the listing-requirement classifier diverges: on the
flag "no" (an informational synonym for both other components) it returns
true while both `_is_real_board_trigger` copies return false — the code
contradicts its own docstring, which demands alignment with the report
cards. -/
theorem c1_real_trigger_classifier_not_shared :
    (∀ flag, DdqParser._is_real_board_trigger flag =
      ReportSnapshot._is_real_board_trigger flag) ∧
    DdqParser._is_real_board_trigger (some "no") = false ∧
    ReportSnapshot._is_real_board_trigger (some "no") = false ∧
    ListingRequirements._is_real_escalation_flag (some "no") = true :=
  ⟨fun _ => rfl, by decide, by decide, by decide⟩

/-- C2: the DDQ parser (and with it the snapshot builder, see
`c1_real_trigger_classifier_not_shared`) classifies exactly by the spec's
rule — non-empty, not an informational synonym, containing an escalation
keyword — and the spec's concrete examples hold; but the
listing-requirement engine does not follow that rule: on the flag "yes"
(no keyword, so not a real trigger under the spec rule and under the
parser) it returns true. -/
theorem c2_keyword_rule_and_listing_divergence :
    (∀ flag, DdqParser._is_real_board_trigger flag =
      spec_is_real_trigger flag) ∧
    spec_is_real_trigger (some "No Review") = false ∧
    spec_is_real_trigger (some "") = false ∧
    spec_is_real_trigger (some "Review Required") = true ∧
    spec_is_real_trigger (some "Escalate to committee") = true ∧
    spec_is_real_trigger (some "yes") = false ∧
    DdqParser._is_real_board_trigger (some "yes") = false ∧
    ListingRequirements._is_real_escalation_flag (some "yes") = true :=
  ⟨parserClassifier_eq_spec, by decide, by decide, by decide, by decide,
   by decide, by decide, by decide⟩

/-- C6: `normalise_raw_response` applies the documented rules in order with
first match winning — empty, n/a set, unknown markers (before yes/no),
yes markers, no markers with the "none …" equivalence class, partial
markers, other — and the spec's concrete examples hold, including the
precedence example "no oracle, not disclosed" → unknown. -/
theorem c6_normalise_follows_spec_cascade :
    (∀ raw, DdqSignals.normalise_raw_response raw = normalise_spec raw) ∧
    DdqSignals.normalise_raw_response (some "") = "unknown" ∧
    DdqSignals.normalise_raw_response (some "N/A") = "na" ∧
    DdqSignals.normalise_raw_response (some "Yes, fully") = "yes" ∧
    DdqSignals.normalise_raw_response (some "partially disclosed") = "partial" ∧
    DdqSignals.normalise_raw_response (some "no oracle, not disclosed") =
      "unknown" :=
  ⟨normalise_eq_spec, by decide, by decide, by decide, by decide, by decide⟩

namespace ListingRequirements

theorem reqLoop_sublist (ctx : ListingContext) :
    ∀ (rules : List ListingRequirementRule) (seen : List String),
      List.Sublist (reqLoop ctx rules seen)
        ((rules.filter (fun r => _rule_matches r ctx)).map ruleOutput) := by
  intro rules
  induction rules with
  | nil => intro seen; simp [reqLoop]
  | cons rule rest ih =>
    intro seen
    simp only [reqLoop, List.filter_cons]
    by_cases hm : _rule_matches rule ctx
    · simp only [hm, Bool.not_true, if_pos, Bool.false_eq_true, if_false,
        List.map_cons]
      by_cases hs : seen.any (fun s => decide (s = rule.id)) = true
      · rw [if_pos hs]
        exact (ih seen).trans (List.sublist_cons_self _ _)
      · rw [if_neg hs]
        exact (ih (rule.id :: seen)).cons₂ _
    · simp only [Bool.not_eq_true', Bool.not_eq_false] at hm
      simp only [hm, Bool.not_false, if_true, Bool.false_eq_true, if_false]
      exact ih seen

theorem reqLoop_not_seen (ctx : ListingContext) :
    ∀ (rules : List ListingRequirementRule) (seen : List String),
      ∀ q ∈ reqLoop ctx rules seen, q.id ∉ seen := by
  intro rules
  induction rules with
  | nil => intro seen q hq; simp [reqLoop] at hq
  | cons rule rest ih =>
    intro seen q hq
    simp only [reqLoop] at hq
    split at hq
    · exact ih seen q hq
    · split at hq
      · exact ih seen q hq
      · rename_i hns
        rcases List.mem_cons.mp hq with rfl | hq
        · intro hmem
          exact hns (anyEq_mem.mpr hmem)
        · intro hmem
          exact ih (rule.id :: seen) q hq (List.mem_cons_of_mem _ hmem)

theorem reqLoop_ids_nodup (ctx : ListingContext) :
    ∀ (rules : List ListingRequirementRule) (seen : List String),
      ((reqLoop ctx rules seen).map (fun q => q.id)).Nodup := by
  intro rules
  induction rules with
  | nil => intro seen; simp [reqLoop]
  | cons rule rest ih =>
    intro seen
    simp only [reqLoop]
    split
    · exact ih seen
    · split
      · exact ih seen
      · simp only [List.map_cons, List.nodup_cons]
        refine ⟨?_, ih (rule.id :: seen)⟩
        intro hmem
        rcases List.mem_map.mp hmem with ⟨q, hq, hid⟩
        exact reqLoop_not_seen ctx rest (rule.id :: seen) q hq
          (hid ▸ List.mem_cons_self _ _)

theorem reqLoop_mem_ids (ctx : ListingContext) :
    ∀ (rules : List ListingRequirementRule) (seen : List String) (s : String),
      (∃ q ∈ reqLoop ctx rules seen, q.id = s) ↔
        (s ∉ seen ∧ ∃ r ∈ rules, r.id = s ∧ _rule_matches r ctx = true) := by
  intro rules
  induction rules with
  | nil => intro seen s; simp [reqLoop]
  | cons rule rest ih =>
    intro seen s
    simp only [reqLoop]
    split
    · rename_i hnm
      simp only [Bool.not_eq_true', Bool.not_eq_false] at hnm
      rw [ih seen s]
      simp only [List.mem_cons]
      constructor
      · rintro ⟨hns, r, hr, rfl, hm⟩
        exact ⟨hns, r, Or.inr hr, rfl, hm⟩
      · rintro ⟨hns, r, hr | hr, rfl, hm⟩
        · rw [hr] at hm
          rw [hnm] at hm
          cases hm
        · exact ⟨hns, r, hr, rfl, hm⟩
    · rename_i hm
      simp only [Bool.not_eq_true, Bool.not_eq_false'] at hm
      split
      · rename_i hseen
        have hseen' : rule.id ∈ seen := anyEq_mem.mp hseen
        rw [ih seen s]
        simp only [List.mem_cons]
        constructor
        · rintro ⟨hns, r, hr, rfl, hmr⟩
          exact ⟨hns, r, Or.inr hr, rfl, hmr⟩
        · rintro ⟨hns, r, hr | hr, rfl, hmr⟩
          · exact absurd (hr ▸ hseen' : r.id ∈ seen) hns
          · exact ⟨hns, r, hr, rfl, hmr⟩
      · rename_i hseen
        have hseen' : rule.id ∉ seen := fun h => hseen (anyEq_mem.mpr h)
        constructor
        · rintro ⟨q, hq, rfl⟩
          rcases List.mem_cons.mp hq with rfl | hq
          · exact ⟨hseen', rule, List.mem_cons_self _ _, rfl, hm⟩
          · have h2 := (ih (rule.id :: seen) q.id).mp ⟨q, hq, rfl⟩
            obtain ⟨hns, r, hr, hrid, hmr⟩ := h2
            refine ⟨fun hc => hns (List.mem_cons_of_mem _ hc),
              r, List.mem_cons_of_mem _ hr, hrid, hmr⟩
        · rintro ⟨hns, r, hr, rfl, hmr⟩
          rcases List.mem_cons.mp hr with rfl | hr
          · exact ⟨ruleOutput r, List.mem_cons_self _ _, rfl⟩
          · by_cases hsame : r.id = rule.id
            · exact ⟨ruleOutput rule, List.mem_cons_self _ _, hsame.symm⟩
            · have h2 := (ih (rule.id :: seen) r.id).mpr
                ⟨by
                  intro hc
                  rcases List.mem_cons.mp hc with hc | hc
                  · exact hsame hc
                  · exact hns hc,
                 r, hr, rfl, hmr⟩
              obtain ⟨q, hq, hid⟩ := h2
              exact ⟨q, List.mem_cons_of_mem _ hq, hid⟩

end ListingRequirements

namespace ListingRequirements

/-- The any-of tag condition as a membership statement. -/
theorem anyTag_iff (l tags : List String) :
    ((l.isEmpty || l.any (fun t => tags.any (fun u => decide (u = t)))) =
      true) ↔ (l ≠ [] → ∃ t ∈ l, t ∈ tags) := by
  cases l <;> simp [anyEq_mem]

/-- The all-of tag condition as a membership statement. -/
theorem allTags_iff (l tags : List String) :
    ((l.isEmpty || l.all (fun t => tags.any (fun u => decide (u = t)))) =
      true) ↔ (∀ t ∈ l, t ∈ tags) := by
  cases l <;> simp [anyEq_mem]

/-- An empty tag list makes the all-of condition vacuous. -/
theorem emptyOr_all_iff {P : String → Prop} {l : List String} :
    (l = [] ∨ ∀ x ∈ l, P x) ↔ (∀ x ∈ l, P x) :=
  ⟨fun h => h.elim (fun he => by simp [he]) id, Or.inr⟩

set_option maxHeartbeats 2000000 in
/-- `_rule_matches` passes exactly when every present condition key holds. -/
theorem rule_matches_iff (rule : ListingRequirementRule)
    (ctx : ListingContext) :
    _rule_matches rule ctx = true ↔
      ((∀ b, rule.conditions.min_overall_band = some b →
          b ≤ ctx.overall_band) ∧
       (∀ b, rule.conditions.max_overall_band = some b →
          ctx.overall_band ≤ b) ∧
       (∀ n, rule.conditions.min_total_escalations = some n →
          n ≤ ctx.total_escalations) ∧
       (∀ n, rule.conditions.min_esg_escalations = some n →
          n ≤ ctx.esg_escalations) ∧
       (rule.conditions.any_tag ≠ [] →
          ∃ t ∈ rule.conditions.any_tag, t ∈ ctx.tags) ∧
       (∀ t ∈ rule.conditions.all_tags, t ∈ ctx.tags) ∧
       (∀ p, rule.conditions.min_posture = some p →
          Posture.rank p ≤ Posture.rank ctx.posture) ∧
       (rule.conditions.requires_speculative_profile = true →
          ctx.has_speculative_profile = true) ∧
       (rule.conditions.requires_governance_centralisation = true →
          ctx.has_hard_control = true)) := by
  obtain ⟨rid, rtitle, rsev, rtext, conds⟩ := rule
  obtain ⟨mob, maxb, mte, mee, anyt, allt, minp, reqs, reqg⟩ := conds
  cases mob <;> cases maxb <;> cases mte <;> cases mee <;> cases minp <;>
    cases reqs <;> cases reqg <;>
    simp [_rule_matches, Bool.and_eq_true, anyEq_mem,
      Bool.not_eq_true', decide_eq_false_iff_not, not_lt, and_assoc,
      gt_iff_lt, or_iff_not_imp_left, emptyOr_all_iff] <;>
    intros <;> simp_all

end ListingRequirements

/-- The posture decision table over abstract count/flag values. -/
theorem posture_table (b : Int) (tot esg : Nat) (sp hc : Bool) :
    (if decide (b ≥ 4) || decide (tot ≥ 6) || decide (esg ≥ 2) || (sp && hc)
      then Posture.heightened
      else if decide (b ≥ 3) && (decide (tot ≥ 3) || hc)
      then Posture.intermediate
      else Posture.benign) =
    (if 4 ≤ b ∨ 6 ≤ tot ∨ 2 ≤ esg ∨ (sp = true ∧ hc = true)
      then Posture.heightened
      else if 3 ≤ b ∧ (3 ≤ tot ∨ hc = true)
      then Posture.intermediate
      else Posture.benign) := by
  by_cases hb4 : 4 ≤ b <;> by_cases ht6 : 6 ≤ tot <;>
    by_cases he2 : 2 ≤ esg <;> cases sp <;> cases hc <;>
    by_cases hb3 : 3 ≤ b <;> by_cases ht3 : 3 ≤ tot <;>
    simp [*, ge_iff_le]

/-- C3: the posture computed by the context builder follows the fixed
decision table, evaluated top-to-bottom with first match winning
(heightened on band ≥ 4 or ≥ 6 real escalations or ≥ 2 ESG escalations or
speculative-plus-hard-control, otherwise intermediate on band ≥ 3 with
≥ 3 escalations or hard control, otherwise benign); and with band 3 and
all else equal, raising the real escalation count from 5 to 6 flips the
posture from intermediate to heightened. -/
theorem c3_posture_decision_table :
    (∀ (band : Int) (escs : List BoardEscalation) (tags : List RefinedTag),
      (ListingRequirements._build_context band escs tags).posture =
        (if 4 ≤ band ∨
            6 ≤ (ListingRequirements._build_context band escs tags).total_escalations ∨
            2 ≤ (ListingRequirements._build_context band escs tags).esg_escalations ∨
            ((ListingRequirements._build_context band escs tags).has_speculative_profile
                = true ∧
              (ListingRequirements._build_context band escs tags).has_hard_control
                = true)
          then Posture.heightened
          else if 3 ≤ band ∧
              (3 ≤ (ListingRequirements._build_context band escs tags).total_escalations ∨
                (ListingRequirements._build_context band escs tags).has_hard_control
                  = true)
          then Posture.intermediate
          else Posture.benign)) ∧
    (ListingRequirements._build_context 3
      (List.replicate 5
        ⟨some "Review Required", some "Technical & Protocol Security"⟩)
      []).posture = Posture.intermediate ∧
    (ListingRequirements._build_context 3
      (List.replicate 6
        ⟨some "Review Required", some "Technical & Protocol Security"⟩)
      []).posture = Posture.heightened := by
  refine ⟨?_, by decide, by decide⟩
  intro band escs tags
  simp only [ListingRequirements._build_context]
  set tot := (escs.filter (fun e =>
    ListingRequirements._is_real_escalation_flag e.flag)).length with htot
  set esg := (escs.filter (fun e =>
    ListingRequirements._is_real_escalation_flag e.flag)).countP (fun e =>
      ListingRequirements.isEsgDomain (ListingRequirements.escDomain e))
    with hesg
  set sp := ListingRequirements.speculative_tags.any (fun t =>
    (ListingRequirements._extract_effective_tag_ids tags).any
      (fun u => decide (u = t))) with hsp
  set hc := ListingRequirements.hard_control_tags.any (fun t =>
    (ListingRequirements._extract_effective_tag_ids tags).any
      (fun u => decide (u = t))) with hhc
  by_cases hb4 : 4 ≤ band <;> by_cases ht6 : 6 ≤ tot <;>
    by_cases he2 : 2 ≤ esg <;> cases sp <;> cases hc <;>
    by_cases hb3 : 3 ≤ band <;> by_cases ht3 : 3 ≤ tot <;>
    simp [*, ge_iff_le]

/-- C4: `build_listing_requirements` instantiates the catalogue loop on the
fixed 7-rule catalogue; for every catalogue the loop emits a rule's output
if and only if every present condition key evaluates true (band bounds,
minimum escalation counts, any-of/all-of tag membership, minimum posture
rank, and the two profile booleans), preserves catalogue order (the output
is a sublist of the matching rules' outputs in catalogue order), and every
requirement identifier appears at most once, even when the catalogue
repeats an identifier. -/
theorem c4_requirement_engine_filter_order_dedup :
    (∀ (band : Int) (escs : List BoardEscalation) (tags : List RefinedTag),
      ListingRequirements.build_listing_requirements band escs tags =
        ListingRequirements.build_listing_requirements_over
          ListingRequirements.LISTING_REQUIREMENT_RULES band escs tags) ∧
    (∀ (rules : List ListingRequirements.ListingRequirementRule)
        (band : Int) (escs : List BoardEscalation) (tags : List RefinedTag),
      ((ListingRequirements.build_listing_requirements_over rules band escs
        tags).map (fun q => q.id)).Nodup) ∧
    (∀ (rules : List ListingRequirements.ListingRequirementRule)
        (band : Int) (escs : List BoardEscalation) (tags : List RefinedTag),
      List.Sublist
        (ListingRequirements.build_listing_requirements_over rules band escs
          tags)
        ((rules.filter (fun r => ListingRequirements._rule_matches r
          (ListingRequirements._build_context band escs tags))).map
            ListingRequirements.ruleOutput)) ∧
    (∀ (rules : List ListingRequirements.ListingRequirementRule)
        (band : Int) (escs : List BoardEscalation) (tags : List RefinedTag)
        (s : String),
      (∃ q ∈ ListingRequirements.build_listing_requirements_over rules band
        escs tags, q.id = s) ↔
        ∃ r ∈ rules, r.id = s ∧ ListingRequirements._rule_matches r
          (ListingRequirements._build_context band escs tags) = true) ∧
    (∀ (rule : ListingRequirements.ListingRequirementRule)
        (ctx : ListingRequirements.ListingContext),
      ListingRequirements._rule_matches rule ctx = true ↔
        ((∀ b, rule.conditions.min_overall_band = some b →
            b ≤ ctx.overall_band) ∧
         (∀ b, rule.conditions.max_overall_band = some b →
            ctx.overall_band ≤ b) ∧
         (∀ n, rule.conditions.min_total_escalations = some n →
            n ≤ ctx.total_escalations) ∧
         (∀ n, rule.conditions.min_esg_escalations = some n →
            n ≤ ctx.esg_escalations) ∧
         (rule.conditions.any_tag ≠ [] →
            ∃ t ∈ rule.conditions.any_tag, t ∈ ctx.tags) ∧
         (∀ t ∈ rule.conditions.all_tags, t ∈ ctx.tags) ∧
         (∀ p, rule.conditions.min_posture = some p →
            Posture.rank p ≤ Posture.rank ctx.posture) ∧
         (rule.conditions.requires_speculative_profile = true →
            ctx.has_speculative_profile = true) ∧
         (rule.conditions.requires_governance_centralisation = true →
            ctx.has_hard_control = true))) := by
  refine ⟨fun _ _ _ => rfl, ?_, ?_, ?_, ListingRequirements.rule_matches_iff⟩
  · intro rules band escs tags
    exact ListingRequirements.reqLoop_ids_nodup _ rules []
  · intro rules band escs tags
    exact ListingRequirements.reqLoop_sublist _ rules []
  · intro rules band escs tags s
    rw [show ListingRequirements.build_listing_requirements_over rules band
      escs tags = ListingRequirements.reqLoop
        (ListingRequirements._build_context band escs tags) rules [] from rfl]
    rw [ListingRequirements.reqLoop_mem_ids]
    simp

/-- The effective-tag mapping function sends a tag to `some s` exactly for
included tags whose stripped id is the non-empty `s`. -/
theorem effTag_some_iff (t : RefinedTag) (s : String) :
    ((if !t.incl then none
      else
        if decide (pyStrip t.id = "") then none else some (pyStrip t.id)) =
      some s) ↔ (t.incl = true ∧ pyStrip t.id = s ∧ ¬(s = "")) := by
  cases hincl : t.incl
  · simp [hincl]
  · by_cases hs : pyStrip t.id = ""
    · simp only [Bool.not_true, Bool.false_eq_true, if_false]
      rw [hs, if_pos (by decide)]
      simp only [true_and]
      constructor
      · intro h
        exact Option.noConfusion h
      · rintro ⟨h1, h2⟩
        exact absurd h1.symm h2
    · simp only [Bool.not_true, Bool.false_eq_true, if_false]
      rw [if_neg (by simp [hs])]
      simp only [true_and, Option.some.injEq]
      constructor
      · intro h
        exact ⟨h, fun h0 => hs (h.trans h0)⟩
      · intro h
        exact h.1

/-- The `includedIds` membership condition. -/
theorem mem_includedIds {tags : List RefinedTag} {s : String} :
    s ∈ includedIds tags ↔
      ∃ t ∈ tags, t.incl = true ∧ ¬(t.id = "") ∧ t.id = s := by
  simp only [includedIds, List.mem_filterMap]
  constructor
  · rintro ⟨t, ht, hf⟩
    by_cases hincl : t.incl <;> by_cases hid : t.id = "" <;>
      simp [hincl, hid] at hf
    exact ⟨t, ht, hincl, hid, hf⟩
  · rintro ⟨t, ht, hincl, hid, rfl⟩
    exact ⟨t, ht, by simp [hincl, hid]⟩

/-- Member-equal included-id sets yield the same effective tag ids. -/
theorem extract_eq_of_includedIds {tags1 tags2 : List RefinedTag}
    (h : ∀ s, s ∈ includedIds tags1 ↔ s ∈ includedIds tags2) :
    ListingRequirements._extract_effective_tag_ids tags1 =
      ListingRequirements._extract_effective_tag_ids tags2 := by
  unfold ListingRequirements._extract_effective_tag_ids
  apply pySortedSet_eq_of_mem_iff
  have key : ∀ (l1 l2 : List RefinedTag),
      (∀ s, s ∈ includedIds l1 → s ∈ includedIds l2) →
      ∀ s, s ∈ l1.filterMap (fun t =>
        if !t.incl then none
        else
          if decide (pyStrip t.id = "") then none
          else some (pyStrip t.id)) →
      s ∈ l2.filterMap (fun t =>
        if !t.incl then none
        else
          if decide (pyStrip t.id = "") then none
          else some (pyStrip t.id)) := by
    intro l1 l2 hsub s hmem
    rw [List.mem_filterMap] at hmem
    obtain ⟨t, ht, hf⟩ := hmem
    rw [effTag_some_iff] at hf
    obtain ⟨hincl, hstrip, hne⟩ := hf
    have hid : ¬(t.id = "") := by
      intro h0
      rw [h0] at hstrip
      exact hne (hstrip.symm.trans rfl)
    have h1 : t.id ∈ includedIds l1 :=
      mem_includedIds.mpr ⟨t, ht, hincl, hid, rfl⟩
    have h2 := hsub t.id h1
    obtain ⟨t2, ht2, hincl2, hid2, hid2eq⟩ := mem_includedIds.mp h2
    rw [List.mem_filterMap]
    refine ⟨t2, ht2, ?_⟩
    rw [effTag_some_iff]
    exact ⟨hincl2, by rw [hid2eq, hstrip], hne⟩
  intro s
  exact ⟨key tags1 tags2 (fun s' => (h s').mp) s,
    key tags2 tags1 (fun s' => (h s').mpr) s⟩

/-- Dropping the non-included tags does not change the effective ids. -/
theorem extract_filter_incl (tags : List RefinedTag) :
    ListingRequirements._extract_effective_tag_ids
      (tags.filter (fun t => t.incl)) =
      ListingRequirements._extract_effective_tag_ids tags := by
  unfold ListingRequirements._extract_effective_tag_ids
  apply pySortedSet_eq_of_mem_iff
  intro s
  simp only [List.mem_filterMap, List.mem_filter]
  constructor
  · rintro ⟨t, ⟨ht, _⟩, hf⟩
    exact ⟨t, ht, hf⟩
  · rintro ⟨t, ht, hf⟩
    have hincl := (effTag_some_iff t s).mp hf
    exact ⟨t, ⟨ht, hincl.1⟩, hf⟩

/-- C5: the context builder and requirement engine depend only on the set
of included tag ids — member-equal included-id sets give identical
contexts and identical requirement lists, and non-included entries behave
exactly as if absent. -/
theorem c5_engine_depends_only_on_included_ids :
    (∀ (band : Int) (escs : List BoardEscalation)
        (tags1 tags2 : List RefinedTag),
      (∀ s, s ∈ includedIds tags1 ↔ s ∈ includedIds tags2) →
      ListingRequirements._build_context band escs tags1 =
        ListingRequirements._build_context band escs tags2 ∧
      ListingRequirements.build_listing_requirements band escs tags1 =
        ListingRequirements.build_listing_requirements band escs tags2) ∧
    (∀ (band : Int) (escs : List BoardEscalation) (tags : List RefinedTag),
      ListingRequirements._build_context band escs
          (tags.filter (fun t => t.incl)) =
        ListingRequirements._build_context band escs tags ∧
      ListingRequirements.build_listing_requirements band escs
          (tags.filter (fun t => t.incl)) =
        ListingRequirements.build_listing_requirements band escs tags) := by
  constructor
  · intro band escs tags1 tags2 h
    have hextract := extract_eq_of_includedIds h
    have hctx : ListingRequirements._build_context band escs tags1 =
        ListingRequirements._build_context band escs tags2 := by
      unfold ListingRequirements._build_context
      rw [hextract]
    refine ⟨hctx, ?_⟩
    unfold ListingRequirements.build_listing_requirements
      ListingRequirements.build_listing_requirements_over
    rw [hctx]
  · intro band escs tags
    have hextract := extract_filter_incl tags
    have hctx : ListingRequirements._build_context band escs
        (tags.filter (fun t => t.incl)) =
        ListingRequirements._build_context band escs tags := by
      unfold ListingRequirements._build_context
      rw [hextract]
    refine ⟨hctx, ?_⟩
    unfold ListingRequirements.build_listing_requirements
      ListingRequirements.build_listing_requirements_over
    rw [hctx]

/-- Witness for `c5_engine_depends_only_on_included_ids`: two concrete
refined-tag lists with the same included ids (the second drops a
non-included entry) yield the same context and requirement list. -/
theorem c5_engine_witness :
    (∀ s, s ∈ includedIds
        [{ id := "alpha", incl := true }, { id := "beta", incl := false }] ↔
      s ∈ includedIds [{ id := "alpha", incl := true, reason := "kept" }]) ∧
    ListingRequirements._build_context 3 []
        [{ id := "alpha", incl := true }, { id := "beta", incl := false }] =
      ListingRequirements._build_context 3 []
        [{ id := "alpha", incl := true, reason := "kept" }] ∧
    ListingRequirements.build_listing_requirements 3 []
        [{ id := "alpha", incl := true }, { id := "beta", incl := false }] =
      ListingRequirements.build_listing_requirements 3 []
        [{ id := "alpha", incl := true, reason := "kept" }] := by
  have h : ∀ s, s ∈ includedIds
      [{ id := "alpha", incl := true }, { id := "beta", incl := false }] ↔
      s ∈ includedIds [{ id := "alpha", incl := true, reason := "kept" }] := by
    intro s
    rw [show includedIds
      [{ id := "alpha", incl := true }, { id := "beta", incl := false }] =
      ["alpha"] from by decide]
    rw [show includedIds
      [{ id := "alpha", incl := true, reason := "kept" }] =
      ["alpha"] from by decide]
  have main := (c5_engine_depends_only_on_included_ids.1) 3 []
    [{ id := "alpha", incl := true }, { id := "beta", incl := false }]
    [{ id := "alpha", incl := true, reason := "kept" }] h
  exact ⟨h, main.1, main.2⟩

/-! ### Stable-sort selection facts for the signal resolver -/

section ResolverSelection

open DdqSignals

theorem scoreLe_refl (x : Nat × Nat × Nat) : scoreLe x x = true := by
  simp [scoreLe]

theorem scoreLe_trans {x y z : Nat × Nat × Nat} (h : scoreLe x y = true)
    (h' : scoreLe y z = true) : scoreLe x z = true := by
  simp only [scoreLe, Bool.or_eq_true, Bool.and_eq_true, decide_eq_true_eq]
    at h h' ⊢
  omega

theorem scoreLe_total (x y : Nat × Nat × Nat) :
    (scoreLe x y || scoreLe y x) = true := by
  simp only [scoreLe, Bool.or_eq_true, Bool.and_eq_true, decide_eq_true_eq]
  omega

theorem scoreLe_antisymm {x y : Nat × Nat × Nat} (h : scoreLe x y = true)
    (h' : scoreLe y x = true) : x = y := by
  obtain ⟨a, b, c⟩ := x
  obtain ⟨d, e, f⟩ := y
  simp only [scoreLe, Bool.or_eq_true, Bool.and_eq_true, decide_eq_true_eq]
    at h h'
  simp only [Prod.mk.injEq]
  omega

theorem enumLE_le_snd {α : Type} {le : α → α → Bool} {x y : Nat × α}
    (h : List.enumLE le x y = true) : le x.2 y.2 = true := by
  unfold List.enumLE at h
  split at h
  · assumption
  · cases h

theorem enumLE_le_fst {α : Type} {le : α → α → Bool} {x y : Nat × α}
    (h : List.enumLE le x y = true) (h2 : le y.2 x.2 = true) : x.1 ≤ y.1 := by
  unfold List.enumLE at h
  by_cases hxy : le x.2 y.2 = true
  · rw [if_pos hxy, if_pos h2] at h
    exact of_decide_eq_true h
  · rw [if_neg hxy] at h
    cases h

theorem find_first_enumFrom {α : Type} (p : α → Bool) :
    ∀ (l : List α) (k i : Nat) (a : α),
      (i, a) ∈ l.enumFrom k → p a = true →
      (∀ j b, (j, b) ∈ l.enumFrom k → p b = true → i ≤ j) →
      l.find? p = some a := by
  intro l
  induction l with
  | nil => intro k i a hmem; simp at hmem
  | cons c cl ih =>
    intro k i a hmem hpa hmin
    rw [List.enumFrom_cons] at hmem
    by_cases hc : p c = true
    · rw [List.find?_cons_of_pos _ hc]
      have hik : i ≤ k := hmin k c (by rw [List.enumFrom_cons]; exact List.mem_cons_self _ _) hc
      rcases List.mem_cons.mp hmem with heq | hmem'
      · simp only [Prod.mk.injEq] at heq
        rw [heq.2]
      · have := (List.mem_enumFrom hmem').1
        omega
    · rw [List.find?_cons_of_neg _ hc]
      have hmem' : (i, a) ∈ cl.enumFrom (k + 1) := by
        rcases List.mem_cons.mp hmem with heq | hmem'
        · simp only [Prod.mk.injEq] at heq
          rw [heq.2] at hpa
          exact absurd hpa hc
        · exact hmem'
      refine ih (k + 1) i a hmem' hpa ?_
      intro j b hjb hpb
      exact hmin j b (by rw [List.enumFrom_cons]; exact List.mem_cons_of_mem _ hjb) hpb

theorem best_answer_head (cs : List AnswerRow) (hne : cs ≠ []) :
    (cs.mergeSort (fun a b => scoreLe (score b) (score a))).head? =
      cs.find? (fun c => cs.all (fun d => scoreLe (score d) (score c))) := by
  have trans : ∀ a b c : AnswerRow, (scoreLe (score b) (score a)) = true →
      (scoreLe (score c) (score b)) = true →
      (scoreLe (score c) (score a)) = true :=
    fun a b c h h' => scoreLe_trans h' h
  have total : ∀ a b : AnswerRow,
      (scoreLe (score b) (score a) || scoreLe (score a) (score b)) = true :=
    fun a b => scoreLe_total _ _
  have henum := @List.mergeSort_enum AnswerRow
    (fun a b => scoreLe (score b) (score a)) cs
  have hperm := List.mergeSort_perm cs.enum
    (List.enumLE (fun a b => scoreLe (score b) (score a)))
  have hsorted := @List.sorted_mergeSort (Nat × AnswerRow)
    (List.enumLE (fun a b => scoreLe (score b) (score a)))
    (fun a b c => List.enumLE_trans trans a b c)
    (fun a b => List.enumLE_total total a b) cs.enum
  cases hes : cs.enum.mergeSort
      (List.enumLE (fun a b => scoreLe (score b) (score a))) with
  | nil =>
    exfalso
    rw [hes] at hperm
    have hlen := hperm.length_eq
    simp only [List.length_nil, List.enum_length] at hlen
    exact hne (List.eq_nil_of_length_eq_zero hlen.symm)
  | cons e0 es' =>
    obtain ⟨i, m⟩ := e0
    rw [hes] at hperm hsorted
    rw [← henum, hes]
    simp only [List.map_cons, List.head?_cons]
    -- membership of (i, m) in cs.enum
    have hmem0 : (i, m) ∈ cs.enum :=
      hperm.mem_iff.mp (List.mem_cons_self _ _)
    have hm_in : m ∈ cs := by
      have := List.mem_map_of_mem Prod.snd hmem0
      rwa [List.enum_map_snd] at this
    -- head maximality wrt enumLE
    have hmax : ∀ jb ∈ cs.enum, jb = (i, m) ∨
        List.enumLE (fun a b => scoreLe (score b) (score a)) (i, m) jb =
          true := by
      intro jb hjb
      have : jb ∈ (i, m) :: es' := hperm.mem_iff.mpr hjb
      rcases List.mem_cons.mp this with heq | hmem
      · exact Or.inl heq
      · exact Or.inr (List.rel_of_pairwise_cons hsorted hmem)
    -- (1) m satisfies P
    have hPm : ∀ d ∈ cs, scoreLe (score d) (score m) = true := by
      intro d hd
      obtain ⟨jd, hjd⟩ : ∃ j, (j, d) ∈ cs.enum := by
        have : d ∈ List.map Prod.snd cs.enum := by
          rw [List.enum_map_snd]; exact hd
        obtain ⟨⟨j, d'⟩, hmem, rfl⟩ := List.mem_map.mp this
        exact ⟨j, hmem⟩
      rcases hmax (jd, d) hjd with heq | hle
      · simp only [Prod.mk.injEq] at heq
        rw [heq.2]
        exact scoreLe_refl _
      · exact enumLE_le_snd hle
    -- conclude via find_first
    symm
    apply find_first_enumFrom _ cs 0 i m hmem0
    · exact List.all_eq_true.mpr (fun d hd => hPm d hd)
    · intro j b hjb hpb
      have hble : scoreLe (score m) (score b) = true :=
        List.all_eq_true.mp hpb m hm_in
      rcases hmax (j, b) hjb with heq | hle
      · simp only [Prod.mk.injEq] at heq
        omega
      · exact enumLE_le_fst hle hble

end ResolverSelection

/-- C7: for every non-empty candidate list gathered by
`best_answer_for_question`, the resolver returns exactly the first
candidate (in ingestion order) whose score triple
`(confidence_rank, has_citations, has_narrative)` is maximal — the unique
maximum under the descending lexicographic order, with ties resolved to
the earlier row. -/
theorem c7_resolver_selects_first_maximum :
    ∀ (parsed : ParsedDDQ) (sheet : String) (qids : List String),
      DdqSignals.candidatesFor parsed sheet qids ≠ [] →
      DdqSignals.best_answer_for_question parsed sheet qids =
        (DdqSignals.candidatesFor parsed sheet qids).find?
          (fun c => (DdqSignals.candidatesFor parsed sheet qids).all
            (fun d => DdqSignals.scoreLe (DdqSignals.score d)
              (DdqSignals.score c))) := by
  intro parsed sheet qids hne
  unfold DdqSignals.best_answer_for_question
  rw [if_neg (by simpa [List.isEmpty_iff] using hne)]
  exact best_answer_head _ hne

/-- Witness for `c7_resolver_selects_first_maximum`: of a Low-confidence
and a High-confidence candidate for the same question, the High one is
selected regardless of ingestion order. -/
theorem c7_resolver_witness :
    (DdqSignals.candidatesFor
        { answers_by_key := [("S::Q1",
          [{ question_id := some "Q1", raw_response := some "maybe",
             confidence := some "Low" },
           { question_id := some "Q1", raw_response := some "yes",
             confidence := some "High" }])] } "S" ["Q1"] ≠ [] ∧
      DdqSignals.best_answer_for_question
        { answers_by_key := [("S::Q1",
          [{ question_id := some "Q1", raw_response := some "maybe",
             confidence := some "Low" },
           { question_id := some "Q1", raw_response := some "yes",
             confidence := some "High" }])] } "S" ["Q1"] =
        some { question_id := some "Q1", raw_response := some "yes",
               confidence := some "High" }) ∧
    (DdqSignals.candidatesFor
        { answers_by_key := [("S::Q1",
          [{ question_id := some "Q1", raw_response := some "yes",
             confidence := some "High" },
           { question_id := some "Q1", raw_response := some "maybe",
             confidence := some "Low" }])] } "S" ["Q1"] ≠ [] ∧
      DdqSignals.best_answer_for_question
        { answers_by_key := [("S::Q1",
          [{ question_id := some "Q1", raw_response := some "yes",
             confidence := some "High" },
           { question_id := some "Q1", raw_response := some "maybe",
             confidence := some "Low" }])] } "S" ["Q1"] =
        some { question_id := some "Q1", raw_response := some "yes",
               confidence := some "High" }) := by
  constructor
  · refine ⟨by decide, ?_⟩
    rw [c7_resolver_selects_first_maximum _ "S" ["Q1"] (by decide)]
    decide
  · refine ⟨by decide, ?_⟩
    rw [c7_resolver_selects_first_maximum _ "S" ["Q1"] (by decide)]
    decide

/-- When every registered source yields no candidate rows, resolution over
those sources gives `none`. -/
theorem resolveFromSources_none (parsed : ParsedDDQ) (name : String) :
    ∀ srcs : List DdqQuestionRegistry.SignalSource,
      (∀ src ∈ srcs,
        DdqSignals.candidatesFor parsed src.sheet src.question_ids = []) →
      DdqSignals.resolveFromSources parsed name srcs = none := by
  intro srcs
  induction srcs with
  | nil => intro _; rfl
  | cons src rest ih =>
    intro h
    have hb : DdqSignals.best_answer_for_question parsed src.sheet
        src.question_ids = none := by
      unfold DdqSignals.best_answer_for_question
      rw [if_pos]
      simp [h src (List.mem_cons_self _ _)]
    unfold DdqSignals.resolveFromSources
    simp only [hb]
    exact ih (fun s hs => h s (List.mem_cons_of_mem _ hs))

/-- Every answer produced by `get_signal_answer` carries the normalisation
of its own raw response as its bucket. -/
theorem get_signal_answer_norm {parsed : ParsedDDQ} {name : String}
    {a : SignalAnswer} (h : DdqSignals.get_signal_answer parsed name = some a) :
    a.response_norm =
      DdqSignals.normalise_raw_response (some a.raw_response) := by
  unfold DdqSignals.get_signal_answer at h
  revert h
  generalize DdqQuestionRegistry.get_sources name = srcs
  induction srcs with
  | nil => intro h; cases h
  | cons src rest ih =>
    unfold DdqSignals.resolveFromSources
    cases hb : DdqSignals.best_answer_for_question parsed src.sheet
        src.question_ids with
    | none =>
      intro h
      exact ih h
    | some ans =>
      intro h
      simp only [Option.some.injEq] at h
      rw [← h]

/-- C8: signal resolution is total — when no registered source yields a
candidate row the resolver returns `none` rather than raising — and the
downstream unknown-ish predicate holds exactly when the resolved answer is
absent or its normalised bucket is unknown or na. -/
theorem c8_resolution_total_and_unknownish :
    ∀ (parsed : ParsedDDQ) (name : String),
      ((∀ src ∈ DdqQuestionRegistry.get_sources name,
          DdqSignals.candidatesFor parsed src.sheet src.question_ids = []) →
        DdqSignals.get_signal_answer parsed name = none) ∧
      (RiskTagInference._is_unknownish
          (DdqSignals.get_signal_answer parsed name) = true ↔
        (DdqSignals.get_signal_answer parsed name = none ∨
          ∃ a, DdqSignals.get_signal_answer parsed name = some a ∧
            (a.response_norm = "unknown" ∨ a.response_norm = "na"))) := by
  intro parsed name
  constructor
  · intro h
    exact resolveFromSources_none parsed name _ h
  · cases hres : DdqSignals.get_signal_answer parsed name with
    | none => simp [RiskTagInference._is_unknownish]
    | some a =>
      have hnorm := get_signal_answer_norm hres
      simp only [RiskTagInference._is_unknownish, ← hnorm,
        Bool.or_eq_true, decide_eq_true_eq, Option.some.injEq,
        reduceCtorEq, false_or]
      constructor
      · intro h
        rcases h with (h | h) | h
        · exact ⟨a, rfl, Or.inl h⟩
        · exact ⟨a, rfl, Or.inr h⟩
        · exact ⟨a, rfl, Or.inl h⟩
      · rintro ⟨a', rfl, h | h⟩
        · exact Or.inl (Or.inl h)
        · exact Or.inl (Or.inr h)

/-- Witness for `c8_resolution_total_and_unknownish`: on an empty answer
store no source yields a candidate, so the oracle-reliability signal
resolves to `none` (and is unknown-ish). -/
theorem c8_resolution_witness :
    (∀ src ∈ DdqQuestionRegistry.get_sources "oracle_reliability",
      DdqSignals.candidatesFor ({} : ParsedDDQ) src.sheet
        src.question_ids = []) ∧
    DdqSignals.get_signal_answer ({} : ParsedDDQ) "oracle_reliability" =
      none :=
  ⟨by decide,
   (c8_resolution_total_and_unknownish ({} : ParsedDDQ)
     "oracle_reliability").1 (by decide)⟩

/-! ### Tag-membership lemmas for the inference rule battery -/

namespace RiskTagInference

open DdqSignals

theorem addTag_tags (st : TagState) (tag : String)
    (anss : List (Option SignalAnswer)) (note : String) :
    (addTag st tag anss note).tags =
      if st.tags.any (fun t => decide (t = tag)) then st.tags
      else st.tags ++ [tag] := rfl

theorem mem_addTag_tags {x tag : String} {st : TagState}
    {anss : List (Option SignalAnswer)} {note : String} :
    x ∈ (addTag st tag anss note).tags ↔ x = tag ∨ x ∈ st.tags := by
  rw [addTag_tags]
  by_cases h : st.tags.any (fun t => decide (t = tag)) = true
  · rw [if_pos h]
    have htag : tag ∈ st.tags := anyEq_mem.mp h
    constructor
    · exact Or.inr
    · rintro (rfl | hx)
      · exact htag
      · exact hx
  · rw [if_neg h]
    rw [List.mem_append, List.mem_singleton]
    exact or_comm

theorem ifAdd_tags_mem {x tag : String} (cond : Bool) (st : TagState)
    (anss : List (Option SignalAnswer)) (note : String) (hne : x ≠ tag) :
    (x ∈ (if cond then addTag st tag anss note else st).tags ↔
      x ∈ st.tags) := by
  cases cond
  · simp
  · simp [mem_addTag_tags, hne]

theorem ifAdd_tags_mem_prop {x tag : String} (cond : Prop) [Decidable cond]
    (st : TagState) (anss : List (Option SignalAnswer)) (note : String)
    (hne : x ≠ tag) :
    (x ∈ (if cond then addTag st tag anss note else st).tags ↔
      x ∈ st.tags) := by
  by_cases h : cond
  · simp [h, mem_addTag_tags, hne]
  · simp [h]

theorem stepAdminKey_mem_of_ne {x : String}
    (hne : x ≠ "admin_key_centralisation_risk") (c : InferCtx)
    (st : TagState) : x ∈ (stepAdminKey c st).tags ↔ x ∈ st.tags := by
  unfold stepAdminKey
  exact ifAdd_tags_mem _ _ _ _ hne

theorem stepUpgradeability_mem_of_ne {x : String}
    (hne1 : x ≠ "upgradeability_risk") (hne2 : x ≠ "timelock_absence_risk")
    (c : InferCtx) (st : TagState) :
    x ∈ (stepUpgradeability c st).tags ↔ x ∈ st.tags := by
  unfold stepUpgradeability
  by_cases h1 : normIn c.upgradeability ["yes", "partial", "other"] = true
  · simp only [h1, if_true]
    by_cases h2 : normIn c.timelock ["no", "unknown", "partial"] = true
    · simp only [h2, if_true]
      rw [mem_addTag_tags]
      simp only [hne2, false_or]
      rw [mem_addTag_tags]
      simp [hne1]
    · simp only [h2, Bool.false_eq_true, if_false]
      rw [mem_addTag_tags]
      simp [hne1]
  · simp [h1]

theorem stepGovDisputes_mem_of_ne {x : String}
    (hne : x ≠ "governance_dispute_history_risk") (c : InferCtx)
    (st : TagState) : x ∈ (stepGovDisputes c st).tags ↔ x ∈ st.tags := by
  unfold stepGovDisputes
  exact ifAdd_tags_mem _ _ _ _ hne

theorem stepSmartContract_mem_of_ne {x : String}
    (hne : x ≠ "smart_contract_risk") (c : InferCtx) (st : TagState) :
    x ∈ (stepSmartContract c st).tags ↔ x ∈ st.tags := by
  unfold stepSmartContract
  exact ifAdd_tags_mem _ _ _ _ hne

theorem stepComplexProtocol_mem_of_ne {x : String}
    (hne : x ≠ "complex_protocol_design_risk") (c : InferCtx)
    (st : TagState) : x ∈ (stepComplexProtocol c st).tags ↔ x ∈ st.tags := by
  unfold stepComplexProtocol
  exact ifAdd_tags_mem _ _ _ _ hne

theorem stepLiquidityConc_mem_of_ne {x : String}
    (hne : x ≠ "liquidity_concentration_risk") (c : InferCtx)
    (st : TagState) : x ∈ (stepLiquidityConc c st).tags ↔ x ∈ st.tags := by
  unfold stepLiquidityConc
  exact ifAdd_tags_mem _ _ _ _ hne

theorem stepLowLiquidity_mem_of_ne {x : String}
    (hne : x ≠ "low_liquidity_risk") (c : InferCtx) (st : TagState) :
    x ∈ (stepLowLiquidity c st).tags ↔ x ∈ st.tags := by
  unfold stepLowLiquidity
  exact ifAdd_tags_mem _ _ _ _ hne

theorem stepWashTrading_mem_of_ne {x : String}
    (hne : x ≠ "wash_trading_risk") (c : InferCtx) (st : TagState) :
    x ∈ (stepWashTrading c st).tags ↔ x ∈ st.tags := by
  unfold stepWashTrading
  cases c.wash_flags with
  | none => exact Iff.rfl
  | some a => exact ifAdd_tags_mem _ _ _ _ hne

theorem stepTreasuryConc_mem_of_ne {x : String}
    (hne : x ≠ "treasury_concentration_risk") (c : InferCtx)
    (st : TagState) : x ∈ (stepTreasuryConc c st).tags ↔ x ∈ st.tags := by
  unfold stepTreasuryConc
  exact ifAdd_tags_mem _ _ _ _ hne

theorem stepTokenomicsConc_mem_of_ne {x : String}
    (hne : x ≠ "tokenomics_concentration_risk") (c : InferCtx)
    (st : TagState) : x ∈ (stepTokenomicsConc c st).tags ↔ x ∈ st.tags := by
  unfold stepTokenomicsConc
  exact ifAdd_tags_mem _ _ _ _ hne

theorem stepUnlockDisclosed_mem_of_ne {x : String}
    (hne : x ≠ "unlock_schedule_uncertainty_risk") (c : InferCtx)
    (st : TagState) : x ∈ (stepUnlockDisclosed c st).tags ↔ x ∈ st.tags := by
  unfold stepUnlockDisclosed
  exact ifAdd_tags_mem _ _ _ _ hne

theorem stepUnlockNext6_mem_of_ne {x : String}
    (hne : x ≠ "unlock_schedule_uncertainty_risk") (c : InferCtx)
    (st : TagState) : x ∈ (stepUnlockNext6 c st).tags ↔ x ∈ st.tags := by
  unfold stepUnlockNext6
  exact ifAdd_tags_mem _ _ _ _ hne

theorem stepUnlockMilestone_mem_of_ne {x : String}
    (hne : x ≠ "insider_unlocks_risk") (c : InferCtx) (st : TagState) :
    x ∈ (stepUnlockMilestone c st).tags ↔ x ∈ st.tags := by
  unfold stepUnlockMilestone
  exact ifAdd_tags_mem _ _ _ _ hne

theorem stepGovWhitepaper_mem_of_ne {x : String}
    (hne : x ≠ "governance_documentation_gaps_risk") (c : InferCtx)
    (st : TagState) : x ∈ (stepGovWhitepaper c st).tags ↔ x ∈ st.tags := by
  unfold stepGovWhitepaper
  exact ifAdd_tags_mem _ _ _ _ hne

theorem stepUnknownCount_mem_of_ne {x : String}
    (hne : x ≠ "poor_disclosure_quality_risk") (c : InferCtx)
    (st : TagState) : x ∈ (stepUnknownCount c st).tags ↔ x ∈ st.tags := by
  simp only [stepUnknownCount]
  exact ifAdd_tags_mem_prop _ _ _ _ hne

theorem stepNegativeCues_mem_of_ne {x : String}
    (hne : x ≠ "poor_disclosure_quality_risk") (c : InferCtx)
    (st : TagState) : x ∈ (stepNegativeCues c st).tags ↔ x ∈ st.tags := by
  unfold stepNegativeCues
  have key : ∀ (l : List (Option SignalAnswer)) (st : TagState),
      x ∈ (l.foldl
        (fun st a =>
          match a with
          | none => st
          | some y =>
            if has_negative_cues (some y.narrative) then
              addTag st "poor_disclosure_quality_risk" [some y] ""
            else st)
        st).tags ↔ x ∈ st.tags := by
    intro l
    induction l with
    | nil => intro st; exact Iff.rfl
    | cons a rest ih =>
      intro st
      rw [List.foldl_cons, ih]
      cases a with
      | none => exact Iff.rfl
      | some y => exact ifAdd_tags_mem _ _ _ _ hne
  exact key _ _

theorem stepSancDesignated_mem_of_ne {x : String}
    (hne : x ≠ "sanctions_designated_wallets_risk") (c : InferCtx)
    (st : TagState) : x ∈ (stepSancDesignated c st).tags ↔ x ∈ st.tags := by
  unfold stepSancDesignated
  exact ifAdd_tags_mem _ _ _ _ hne

theorem stepSancEnforcement_mem_of_ne {x : String}
    (hne : x ≠ "sanctions_enforcement_watch_risk") (c : InferCtx)
    (st : TagState) : x ∈ (stepSancEnforcement c st).tags ↔ x ∈ st.tags := by
  unfold stepSancEnforcement
  exact ifAdd_tags_mem _ _ _ _ hne

theorem stepSancStructural_mem_of_ne {x : String}
    (hne : x ≠ "sanctions_exposure_risk") (c : InferCtx) (st : TagState) :
    x ∈ (stepSancStructural c st).tags ↔ x ∈ st.tags := by
  unfold stepSancStructural
  cases c.sanc_structural with
  | none => exact Iff.rfl
  | some a => exact ifAdd_tags_mem _ _ _ _ hne

theorem stepSancGeoVolume_mem_of_ne {x : String}
    (hne : x ≠ "sanctions_exposure_risk") (c : InferCtx) (st : TagState) :
    x ∈ (stepSancGeoVolume c st).tags ↔ x ∈ st.tags := by
  unfold stepSancGeoVolume
  cases c.sanc_geo_volume with
  | none => exact Iff.rfl
  | some a => exact ifAdd_tags_mem _ _ _ _ hne

theorem stepSancScreening_mem_of_ne {x : String}
    (hne : x ≠ "sanctions_screening_controls_risk") (c : InferCtx)
    (st : TagState) : x ∈ (stepSancScreening c st).tags ↔ x ∈ st.tags := by
  unfold stepSancScreening
  exact ifAdd_tags_mem _ _ _ _ hne

theorem stepOracle_oracle_mem (c : InferCtx) (st : TagState) :
    "oracle_dependency_risk" ∈ (stepOracle c st).tags ↔
      ((∃ a, c.oracle_rel = some a ∧ ¬(a.response_norm = "na") ∧
        pyIn "no oracle" (pyLower a.raw_response) = false ∧
        pyIn "not oracle" (pyLower a.raw_response) = false) ∨
       "oracle_dependency_risk" ∈ st.tags) := by
  unfold stepOracle
  cases ho : c.oracle_rel with
  | none => simp
  | some a =>
    by_cases hna : a.response_norm = "na"
    · simp [hna]
    · by_cases h1 : pyIn "no oracle" (pyLower a.raw_response) = true
      · simp [hna, h1]
      · by_cases h2 : pyIn "not oracle" (pyLower a.raw_response) = true
        · simp [hna, h1, h2]
        · simp only [Bool.not_eq_true] at h1 h2
          by_cases h3 : (["partial", "unknown"].any
              (fun x => decide (x = a.response_norm))) = true
          · simp [hna, h1, h2, h3, mem_addTag_tags]
          · simp [hna, h1, h2, h3, mem_addTag_tags]

theorem stepOracle_defi_mem (c : InferCtx) (st : TagState) :
    "defi_liquidation_mechanism_risk" ∈ (stepOracle c st).tags ↔
      ((∃ a, c.oracle_rel = some a ∧ ¬(a.response_norm = "na") ∧
        pyIn "no oracle" (pyLower a.raw_response) = false ∧
        pyIn "not oracle" (pyLower a.raw_response) = false ∧
        (a.response_norm = "partial" ∨ a.response_norm = "unknown")) ∨
       "defi_liquidation_mechanism_risk" ∈ st.tags) := by
  unfold stepOracle
  cases ho : c.oracle_rel with
  | none => simp
  | some a =>
    by_cases hna : a.response_norm = "na"
    · simp [hna]
    · by_cases h1 : pyIn "no oracle" (pyLower a.raw_response) = true
      · simp [hna, h1]
      · by_cases h2 : pyIn "not oracle" (pyLower a.raw_response) = true
        · simp [hna, h1, h2]
        · simp only [Bool.not_eq_true] at h1 h2
          by_cases h3 : (["partial", "unknown"].any
              (fun x => decide (x = a.response_norm))) = true
          · have h3' : a.response_norm = "partial" ∨
                a.response_norm = "unknown" := by
              rcases (by simpa using h3 :
                  "partial" = a.response_norm ∨
                    "unknown" = a.response_norm) with h | h
              · exact Or.inl h.symm
              · exact Or.inr h.symm
            simp [hna, h1, h2, h3, h3', mem_addTag_tags]
          · have h3' : ¬(a.response_norm = "partial" ∨
                a.response_norm = "unknown") := by
              intro hcon
              apply h3
              simp only [List.any_cons, List.any_nil, Bool.or_eq_true,
                decide_eq_true_eq]
              rcases hcon with h | h
              · exact Or.inl h.symm
              · exact Or.inr (Or.inl h.symm)
            simp [hna, h1, h2, h3, h3', mem_addTag_tags]

theorem runInferSteps_oracle_mem (c : InferCtx) (st : TagState) :
    "oracle_dependency_risk" ∈ (runInferSteps c st).tags ↔
      ((∃ a, c.oracle_rel = some a ∧ ¬(a.response_norm = "na") ∧
        pyIn "no oracle" (pyLower a.raw_response) = false ∧
        pyIn "not oracle" (pyLower a.raw_response) = false) ∨
       "oracle_dependency_risk" ∈ st.tags) := by
  unfold runInferSteps
  rw [stepSancScreening_mem_of_ne (by decide),
    stepSancGeoVolume_mem_of_ne (by decide),
    stepSancStructural_mem_of_ne (by decide),
    stepSancEnforcement_mem_of_ne (by decide),
    stepSancDesignated_mem_of_ne (by decide),
    stepNegativeCues_mem_of_ne (by decide),
    stepUnknownCount_mem_of_ne (by decide),
    stepGovWhitepaper_mem_of_ne (by decide),
    stepUnlockMilestone_mem_of_ne (by decide),
    stepUnlockNext6_mem_of_ne (by decide),
    stepUnlockDisclosed_mem_of_ne (by decide),
    stepTokenomicsConc_mem_of_ne (by decide),
    stepTreasuryConc_mem_of_ne (by decide),
    stepWashTrading_mem_of_ne (by decide),
    stepLowLiquidity_mem_of_ne (by decide),
    stepLiquidityConc_mem_of_ne (by decide),
    stepComplexProtocol_mem_of_ne (by decide),
    stepOracle_oracle_mem,
    stepSmartContract_mem_of_ne (by decide),
    stepGovDisputes_mem_of_ne (by decide),
    stepUpgradeability_mem_of_ne (by decide) (by decide),
    stepAdminKey_mem_of_ne (by decide)]

theorem runInferSteps_defi_mem (c : InferCtx) (st : TagState) :
    "defi_liquidation_mechanism_risk" ∈ (runInferSteps c st).tags ↔
      ((∃ a, c.oracle_rel = some a ∧ ¬(a.response_norm = "na") ∧
        pyIn "no oracle" (pyLower a.raw_response) = false ∧
        pyIn "not oracle" (pyLower a.raw_response) = false ∧
        (a.response_norm = "partial" ∨ a.response_norm = "unknown")) ∨
       "defi_liquidation_mechanism_risk" ∈ st.tags) := by
  unfold runInferSteps
  rw [stepSancScreening_mem_of_ne (by decide),
    stepSancGeoVolume_mem_of_ne (by decide),
    stepSancStructural_mem_of_ne (by decide),
    stepSancEnforcement_mem_of_ne (by decide),
    stepSancDesignated_mem_of_ne (by decide),
    stepNegativeCues_mem_of_ne (by decide),
    stepUnknownCount_mem_of_ne (by decide),
    stepGovWhitepaper_mem_of_ne (by decide),
    stepUnlockMilestone_mem_of_ne (by decide),
    stepUnlockNext6_mem_of_ne (by decide),
    stepUnlockDisclosed_mem_of_ne (by decide),
    stepTokenomicsConc_mem_of_ne (by decide),
    stepTreasuryConc_mem_of_ne (by decide),
    stepWashTrading_mem_of_ne (by decide),
    stepLowLiquidity_mem_of_ne (by decide),
    stepLiquidityConc_mem_of_ne (by decide),
    stepComplexProtocol_mem_of_ne (by decide),
    stepOracle_defi_mem,
    stepSmartContract_mem_of_ne (by decide),
    stepGovDisputes_mem_of_ne (by decide),
    stepUpgradeability_mem_of_ne (by decide) (by decide),
    stepAdminKey_mem_of_ne (by decide)]

theorem resolveFromSources_tti (p : ParsedDDQ)
    (v : Option TokenTypeInferred) (name : String) :
    ∀ srcs, DdqSignals.resolveFromSources
        { p with token_type_inferred := v } name srcs =
      DdqSignals.resolveFromSources p name srcs := by
  intro srcs
  induction srcs with
  | nil => rfl
  | cons src rest ih =>
    unfold DdqSignals.resolveFromSources
    rw [show DdqSignals.best_answer_for_question
        { p with token_type_inferred := v } src.sheet src.question_ids =
      DdqSignals.best_answer_for_question p src.sheet src.question_ids
      from rfl]
    cases DdqSignals.best_answer_for_question p src.sheet
        src.question_ids with
    | none => exact ih
    | some ans => rfl

theorem get_signal_answer_tti (p : ParsedDDQ) (v : Option TokenTypeInferred)
    (s : String) :
    DdqSignals.get_signal_answer { p with token_type_inferred := v } s =
      DdqSignals.get_signal_answer p s :=
  resolveFromSources_tti p v s _



/-- Membership of the oracle-dependency tag in the inferred tag list. -/
theorem infer_oracle_mem_iff (p : ParsedDDQ) :
    "oracle_dependency_risk" ∈ (infer_risk_tags_from_ddq p).1 ↔
      ∃ a, DdqSignals.get_signal_answer p "oracle_reliability" = some a ∧
        ¬(a.response_norm = "na") ∧
        pyIn "no oracle" (pyLower a.raw_response) = false ∧
        pyIn "not oracle" (pyLower a.raw_response) = false := by
  simp only [infer_risk_tags_from_ddq]
  rw [mem_pySortedSet, runInferSteps_oracle_mem]
  simp only [buildInferCtx]
  rw [get_signal_answer_tti]
  simp

/-- Membership of the liquidation-mechanism tag in the inferred tag list. -/
theorem infer_defi_mem_iff (p : ParsedDDQ) :
    "defi_liquidation_mechanism_risk" ∈ (infer_risk_tags_from_ddq p).1 ↔
      ∃ a, DdqSignals.get_signal_answer p "oracle_reliability" = some a ∧
        ¬(a.response_norm = "na") ∧
        pyIn "no oracle" (pyLower a.raw_response) = false ∧
        pyIn "not oracle" (pyLower a.raw_response) = false ∧
        (a.response_norm = "partial" ∨ a.response_norm = "unknown") := by
  simp only [infer_risk_tags_from_ddq]
  rw [mem_pySortedSet, runInferSteps_defi_mem]
  simp only [buildInferCtx]
  rw [get_signal_answer_tti]
  simp

end RiskTagInference

/-- C9 counterexample: the claim "the oracle-dependency tag is emitted iff
the oracle-reliability signal resolves and its raw text contains neither
\"no oracle\" nor \"not oracle\"" fails on a DDQ whose oracle answer is
"N/A" — the signal resolves, its raw text contains neither marker, yet the
tag is not emitted, because the code additionally requires the normalised
bucket to differ from na. -/
theorem c9_oracle_rule_counterexample :
    ∃ a, DdqSignals.get_signal_answer
        ({ answers_by_key := [("Technical & Protocol Security::A4.2",
          [{ question_id := some "A4.2", raw_response := some "N/A" }])] } :
          ParsedDDQ) "oracle_reliability" = some a ∧
      pyIn "no oracle" (pyLower a.raw_response) = false ∧
      pyIn "not oracle" (pyLower a.raw_response) = false ∧
      "oracle_dependency_risk" ∉ (RiskTagInference.infer_risk_tags_from_ddq
        { answers_by_key := [("Technical & Protocol Security::A4.2",
          [{ question_id := some "A4.2", raw_response := some "N/A" }])] }).1 := by
  have hb : DdqSignals.best_answer_for_question
      ({ answers_by_key := [("Technical & Protocol Security::A4.2",
        [{ question_id := some "A4.2", raw_response := some "N/A" }])] } :
        ParsedDDQ) "Technical & Protocol Security" ["A4.2"] =
      some { question_id := some "A4.2", raw_response := some "N/A" } := by
    unfold DdqSignals.best_answer_for_question
    rw [if_neg (by decide)]
    rw [show DdqSignals.candidatesFor
        ({ answers_by_key := [("Technical & Protocol Security::A4.2",
          [{ question_id := some "A4.2", raw_response := some "N/A" }])] } :
          ParsedDDQ) "Technical & Protocol Security" ["A4.2"] =
      [{ question_id := some "A4.2", raw_response := some "N/A" }] from by
        decide]
    rw [List.mergeSort_singleton]
    rfl
  have hsig : DdqSignals.get_signal_answer
      ({ answers_by_key := [("Technical & Protocol Security::A4.2",
        [{ question_id := some "A4.2", raw_response := some "N/A" }])] } :
        ParsedDDQ) "oracle_reliability" =
      some { signal := "oracle_reliability",
             sheet := "Technical & Protocol Security",
             question_id := "A4.2", raw_response := "N/A",
             response_norm := "na", confidence := "", narrative := "",
             citations := [], numeric := none } := by
    unfold DdqSignals.get_signal_answer
    rw [show DdqQuestionRegistry.get_sources "oracle_reliability" =
      [⟨"Technical & Protocol Security", ["A4.2"]⟩] from rfl]
    unfold DdqSignals.resolveFromSources
    rw [hb]
    decide
  refine ⟨_, hsig, by decide, by decide, ?_⟩
  rw [RiskTagInference.infer_oracle_mem_iff]
  rw [hsig]
  simp

/-- C9 (amended): the oracle-dependency tag is emitted iff the
oracle-reliability signal resolves to an answer whose normalised bucket is
not na and whose raw text contains neither "no oracle" nor "not oracle"
(case-insensitively); and the liquidation-mechanism tag is emitted iff, in
addition, that signal's bucket is partial or unknown. -/
theorem c9_oracle_rule_amended :
    ∀ p : ParsedDDQ,
      ("oracle_dependency_risk" ∈
          (RiskTagInference.infer_risk_tags_from_ddq p).1 ↔
        ∃ a, DdqSignals.get_signal_answer p "oracle_reliability" = some a ∧
          ¬(a.response_norm = "na") ∧
          pyIn "no oracle" (pyLower a.raw_response) = false ∧
          pyIn "not oracle" (pyLower a.raw_response) = false) ∧
      ("defi_liquidation_mechanism_risk" ∈
          (RiskTagInference.infer_risk_tags_from_ddq p).1 ↔
        ∃ a, DdqSignals.get_signal_answer p "oracle_reliability" = some a ∧
          ¬(a.response_norm = "na") ∧
          pyIn "no oracle" (pyLower a.raw_response) = false ∧
          pyIn "not oracle" (pyLower a.raw_response) = false ∧
          (a.response_norm = "partial" ∨ a.response_norm = "unknown")) :=
  fun p => ⟨RiskTagInference.infer_oracle_mem_iff p,
    RiskTagInference.infer_defi_mem_iff p⟩

/-- C10: `infer_risk_tags_from_ddq` changes its input dictionary only at
the keys `"_token_type_inferred"` and `"_tag_evidence"` (both set to some
value): the answer store, the token category and every other key are
unchanged; and the returned tag list is sorted (strictly increasing in the
code-point order Python's `sorted` uses, hence duplicate-free). -/
theorem c10_infer_frame_and_sorted (p : ParsedDDQ) :
    ((RiskTagInference.infer_risk_tags_from_ddq p).1.Pairwise
      (fun a b => strLt a b = true)) ∧
    (RiskTagInference.infer_risk_tags_from_ddq p).2.answers_by_key =
      p.answers_by_key ∧
    (RiskTagInference.infer_risk_tags_from_ddq p).2.token_category =
      p.token_category ∧
    (RiskTagInference.infer_risk_tags_from_ddq p).2.rest = p.rest ∧
    (∃ v, (RiskTagInference.infer_risk_tags_from_ddq p).2.token_type_inferred =
      some v) ∧
    (∃ e, (RiskTagInference.infer_risk_tags_from_ddq p).2.tag_evidence =
      some e) :=
  ⟨pairwise_pySortedSet _, rfl, rfl, rfl, ⟨_, rfl⟩, ⟨_, rfl⟩⟩
